import Mathlib

set_option autoImplicit false

/-!
Shallow embedding of the proof-mvr services (add-mvr, batch-add-mvr, get-mvr,
log-processor, mirroring-processor) and verification of the specification's
claims about them.  Each definition is translated from the corresponding
TypeScript function; JavaScript truthiness, `||` defaulting and `===`
comparisons are modelled explicitly.  Dates are modelled at day granularity
(integer day numbers), matching the yyyy-MM-dd date values the services store
and compare.
-/

namespace MVR

/-! ## JSON-like values (request bodies crossing the validation layer)

`none` at a field position plays the role of JavaScript `undefined`;
explicit JSON `null` is the `jNull` constructor. -/

inductive JValue where
  | jStr (s : String)
  | jNum (n : Int)
  | jBool (b : Bool)
  | jArr (elems : List JValue)
  | jObj (fields : List (String × JValue))
  | jNull

/-- `value === true` (strict equality against the boolean literal). -/
def isTrueLit : JValue → Bool
  | JValue.jBool b => b
  | _ => false

abbrev JObj := List (String × JValue)

/-- Field access `data[fieldName]`; a missing key is `undefined` (`none`). -/
def jget (o : JObj) (k : String) : Option JValue :=
  (o.find? (fun p => p.1 == k)).map (fun p => p.2)

/-- `value === null || value === undefined`. -/
def isNullish : Option JValue → Bool
  | none => true
  | some JValue.jNull => true
  | some _ => false

/-- JavaScript truthiness of a defined value. -/
def jTruthy : JValue → Bool
  | JValue.jStr s => s ≠ ""
  | JValue.jNum n => n ≠ 0
  | JValue.jBool b => b
  | JValue.jArr _ => true
  | JValue.jObj _ => true
  | JValue.jNull => false

/-- Truthiness of a possibly-undefined value (`!x` is its negation). -/
def jTruthyOpt : Option JValue → Bool
  | none => false
  | some v => jTruthy v

/-- `Array.isArray(value) ? 'array' : typeof value` (never applied to null). -/
def jsTypeName : JValue → String
  | JValue.jStr _ => "string"
  | JValue.jNum _ => "number"
  | JValue.jBool _ => "boolean"
  | JValue.jArr _ => "array"
  | JValue.jObj _ => "object"
  | JValue.jNull => "object"

/-- ASCII whitespace for trim. -/
def isWsChar (c : Char) : Bool :=
  c == ' ' || c == '\t' || c == '\n' || c == '\r'

/-- `value.trim()`, as a structural list computation. -/
def jsTrim (s : String) : String :=
  String.mk (((s.data.dropWhile isWsChar).reverse.dropWhile isWsChar).reverse)

/-- `value.toLowerCase()` (ASCII), as a structural list computation. -/
def jsToLower (s : String) : String :=
  String.mk (s.data.map Char.toLower)

/-! ## The validation library (add-mvr/validation.ts) -/

structure ValidationError where
  field : String
  message : String
  deriving Repr, DecidableEq

structure FieldConfig where
  required : Bool := false
  allowEmpty : Bool := false
  allowOther : Bool := false
  expectedType : Option String := none
  customValidator : Option (JValue → Bool × String) := none

abbrev ValidationSchema := List (String × FieldConfig)

/-- `validateField` from validation.ts: at most one error per field, produced
by the first failing rule, in the source's rule order. -/
def validateField (fieldName : String) (value : Option JValue)
    (config : FieldConfig) : Option ValidationError :=
  if config.required && isNullish value then
    some { field := fieldName,
           message := fieldName ++ " is required and cannot be null or undefined" }
  else if config.required && !config.allowEmpty &&
      (match value with
       | some (JValue.jStr s) => jsTrim s == ""
       | _ => false) then
    some { field := fieldName,
           message := fieldName ++ " is required and cannot be empty" }
  else if isNullish value && !config.required then
    none
  else if !config.allowOther &&
      (match value with
       | some (JValue.jStr s) => jsToLower s == "other"
       | _ => false) then
    some { field := fieldName,
           message := fieldName ++ " cannot be 'Other'. Please provide a valid value" }
  else
    match value with
    | none => none
    | some JValue.jNull => none
    | some v =>
      match config.expectedType with
      | some t =>
        if jsTypeName v ≠ t then
          some { field := fieldName,
                 message := fieldName ++ " must be of type " ++ t ++
                            ", received " ++ jsTypeName v }
        else
          match config.customValidator with
          | some f =>
            let r := f v
            if r.1 then none else some { field := fieldName, message := r.2 }
          | none => none
      | none =>
        match config.customValidator with
        | some f =>
          let r := f v
          if r.1 then none else some { field := fieldName, message := r.2 }
        | none => none

structure ValidationResult where
  isValid : Bool
  errors : List ValidationError
  deriving Repr, DecidableEq

/-- `validateSchema`: iterate the schema entries in declaration order,
collecting the per-field errors. -/
def validateSchema (data : JObj) (schema : ValidationSchema) : ValidationResult :=
  let errors := schema.filterMap (fun p => validateField p.1 (jget data p.1) p.2)
  { isValid := errors.isEmpty, errors := errors }

/-- `validateOrThrow`: on failure, an HttpError whose message joins the
field errors with a semicolon separator. -/
def validateOrThrow (data : JObj) (schema : ValidationSchema)
    (statusCode : Nat := 400) : Except (Nat × String) Unit :=
  let result := validateSchema data schema
  if result.isValid then Except.ok ()
  else Except.error (statusCode,
    String.intercalate "; " (result.errors.map (fun e => e.message)))

/-! ### The custom validators -/

def validPurposes : List String :=
  ["EMPLOYMENT", "INSURANCE", "LEGAL", "GOVERNMENT", "UNDERWRITING", "FRAUD"]

def permissiblePurposeV (v : JValue) : Bool × String :=
  ((match v with
    | JValue.jStr s => validPurposes.contains s
    | _ => false),
   "permissible_purpose must be one of: " ++ String.intercalate ", " validPurposes)

def consentRequiredV (v : JValue) : Bool × String :=
  (isTrueLit v, "Consent is required and must be true")

/-- `Number(value)` of the values the type check lets through. -/
def jsToNumber : JValue → Option Int
  | JValue.jNum n => some n
  | JValue.jBool b => some (if b then 1 else 0)
  | _ => none

def nonNegativeNumberV (v : JValue) : Bool × String :=
  ((match jsToNumber v with
    | some n => decide (0 ≤ n)
    | none => false),
   "Value must be a non-negative number")

def integerV (v : JValue) : Bool × String :=
  ((jsToNumber v).isSome, "Value must be an integer")

def nonEmptyArrayV (v : JValue) : Bool × String :=
  ((match v with
    | JValue.jArr l => !l.isEmpty
    | _ => false),
   "Value must be a non-empty array")

def driversLicenseNumberV (v : JValue) : Bool × String :=
  ((match v with
    | JValue.jStr s => decide (0 < (jsTrim s).length)
    | _ => false),
   "drivers_license_number must be a non-empty string")

def redisclosureAuthorizationV (v : JValue) : Bool × String :=
  (isTrueLit v, "redisclosure_authorization is required and must be true")

/-- The `days` validator of the getMvr schema: integrality first, then
non-negativity, each with its own message. -/
def daysV (v : JValue) : Bool × String :=
  let intResult := integerV v
  if !intResult.1 then intResult else nonNegativeNumberV v

/-! ### The schemas -/

def schemaAddMvr : ValidationSchema :=
  [("company_id",
    { required := true, expectedType := some "string" }),
   ("permissible_purpose",
    { required := true, expectedType := some "string",
      customValidator := some permissiblePurposeV }),
   ("price_paid",
    { required := true, expectedType := some "number",
      customValidator := some nonNegativeNumberV }),
   ("redisclosure_authorization",
    { required := true, expectedType := some "boolean",
      customValidator := some redisclosureAuthorizationV }),
   ("storage_limitations",
    { required := false, expectedType := some "number",
      customValidator := some nonNegativeNumberV })]

def requiredStringField : FieldConfig :=
  { required := true, expectedType := some "string" }

def schemaAddMvrData : ValidationSchema :=
  [("drivers_license_number",
    { required := true, expectedType := some "string",
      customValidator := some driversLicenseNumberV }),
   ("full_legal_name", requiredStringField),
   ("birthdate", requiredStringField),
   ("weight", requiredStringField),
   ("sex", requiredStringField),
   ("height", requiredStringField),
   ("hair_color", requiredStringField),
   ("eye_color", requiredStringField),
   ("issued_state_code", requiredStringField),
   ("state_code", requiredStringField)]

def schemaGetMvr : ValidationSchema :=
  [("drivers_license_number",
    { required := true, expectedType := some "string",
      customValidator := some driversLicenseNumberV }),
   ("company_id",
    { required := true, expectedType := some "string" }),
   ("permissible_purpose",
    { required := true, expectedType := some "string",
      customValidator := some permissiblePurposeV }),
   ("days",
    { required := true, expectedType := some "number",
      customValidator := some daysV }),
   ("consent",
    { required := true, expectedType := some "boolean",
      customValidator := some consentRequiredV })]

def schemaBatchAddMvr : ValidationSchema :=
  [("company_id",
    { required := true, expectedType := some "string" }),
   ("permissible_purpose",
    { required := true, expectedType := some "string",
      customValidator := some permissiblePurposeV }),
   ("batch_mvrs",
    { required := true, expectedType := some "array",
      customValidator := some nonEmptyArrayV })]

/-! ## JavaScript defaulting helpers (`x || d`, `x || null`) -/

/-- `x || d` for an optional integer: `0` is falsy. -/
def jsIntOr (x : Option Int) (d : Int) : Int :=
  match x with
  | none => d
  | some n => if n = 0 then d else n

/-- `x || null` for an optional integer. -/
def jsIntOrNull (x : Option Int) : Option Int :=
  match x with
  | none => none
  | some n => if n = 0 then none else some n

/-- `x || null` for an optional string: the empty string is falsy. -/
def jsStrOrNull (x : Option String) : Option String :=
  match x with
  | none => none
  | some s => if s = "" then none else some s

/-- `x || d` for an optional boolean. -/
def jsBoolOr (x : Option Bool) (d : Bool) : Bool :=
  match x with
  | none => d
  | some b => if b then b else d

/-- Truthiness of an optional string (`s` is falsy when absent or empty). -/
def strTruthy : Option String → Bool
  | none => false
  | some s => s ≠ ""

/-! ## The relational store

One structure per table of the MVR database; rows carry the columns the
services read or write.  Dates are integer day numbers; `date_uploaded`
is the day part of the `NOW()` timestamp. -/

structure UserRow where
  id : Nat
  drivers_license_number : String
  full_legal_name : String
  birthdate : String
  weight : String
  sex : String
  height : String
  hair_color : String
  eye_color : String
  medical_information : Option String
  address : Option String
  city : Option String
  issued_state_code : String
  zip : Option Int
  phone_number : Option Int
  email : Option String
  current_mvr_id : Option Nat
  deriving Repr, DecidableEq

structure MvrRow where
  id : Nat
  claim_number : Option String
  order_id : Option String
  order_date : Int
  report_date : Int
  reference_number : Option String
  system_use : Option String
  mvr_type : Option String
  state_code : String
  purpose : Option String
  time_frame : Option String
  is_certified : Bool
  total_points : Int
  date_uploaded : Int
  company_id : String
  consent : Bool
  price_paid : Option Int
  redisclosure_authorization : Bool
  storage_limitations : Int
  deriving Repr, DecidableEq

structure LicenseInfoRow where
  mvr_id : Nat
  license_class : Option String
  issue_date : Option String
  expiration_date : Option String
  status : Option String
  restrictions : Option String
  deriving Repr, DecidableEq

structure ViolationRow where
  mvr_id : Nat
  violation_date : Int
  conviction_date : Option Int
  location : Option String
  points_assessed : Int
  violation_code : Option String
  description : Option String
  deriving Repr, DecidableEq

structure WithdrawalRow where
  mvr_id : Nat
  effective_date : Int
  eligibility_date : Option Int
  action_type : Option String
  reason : Option String
  deriving Repr, DecidableEq

structure AccidentRow where
  mvr_id : Nat
  accident_date : Int
  location : Option String
  acd_code : Option String
  description : Option String
  deriving Repr, DecidableEq

structure CrimeRow where
  mvr_id : Nat
  crime_date : Int
  conviction_date : Option Int
  offense_code : Option String
  description : Option String
  deriving Repr, DecidableEq

structure TransactionRow where
  mvr_id : Nat
  seller_id : String
  buyer_id : String
  state_code : String
  deriving Repr, DecidableEq

structure Store where
  users : List UserRow
  mvr_records : List MvrRow
  drivers_license_info : List LicenseInfoRow
  traffic_violations : List ViolationRow
  withdrawals : List WithdrawalRow
  accident_reports : List AccidentRow
  traffic_crimes : List CrimeRow
  transactions : List TransactionRow
  nextUserId : Nat
  nextMvrId : Nat
  deriving Repr, DecidableEq

def Store.empty : Store :=
  { users := [], mvr_records := [], drivers_license_info := [],
    traffic_violations := [], withdrawals := [], accident_reports := [],
    traffic_crimes := [], transactions := [], nextUserId := 1, nextMvrId := 1 }

/-! ## Typed MVR payloads (the `MVRData` interface) -/

structure ViolationData where
  violation_date : Int
  conviction_date : Option Int := none
  location : Option String := none
  points_assessed : Option Int := none
  violation_code : Option String := none
  description : Option String := none
  deriving Repr, DecidableEq

structure WithdrawalData where
  effective_date : Int
  eligibility_date : Option Int := none
  action_type : Option String := none
  reason : Option String := none
  deriving Repr, DecidableEq

structure AccidentData where
  accident_date : Int
  location : Option String := none
  acd_code : Option String := none
  description : Option String := none
  deriving Repr, DecidableEq

structure CrimeData where
  crime_date : Int
  conviction_date : Option Int := none
  offense_code : Option String := none
  description : Option String := none
  deriving Repr, DecidableEq

structure MVRData where
  drivers_license_number : String
  full_legal_name : String
  birthdate : String
  weight : String
  sex : String
  height : String
  hair_color : String
  eye_color : String
  medical_information : Option String := none
  address : Option String := none
  city : Option String := none
  issued_state_code : String
  zip : Option Int := none
  phone_number : Option Int := none
  email : Option String := none
  claim_number : Option String := none
  order_id : Option String := none
  order_date : Option Int := none
  report_date : Option Int := none
  reference_number : Option String := none
  system_use : Option String := none
  mvr_type : Option String := none
  state_code : String
  purpose : Option String := none
  time_frame : Option String := none
  is_certified : Option Bool := none
  total_points : Option Int := none
  consent : Option Bool := none
  price_paid : Option Int := none
  redisclosure_authorization : Option Bool := none
  storage_limitations : Option Int := none
  license_class : Option String := none
  issue_date : Option String := none
  expiration_date : Option String := none
  status : Option String := none
  restrictions : Option String := none
  date_uploaded : Option Int := none
  violations : List ViolationData := []
  withdrawals : List WithdrawalData := []
  accidents : List AccidentData := []
  crimes : List CrimeData := []
  deriving Repr, DecidableEq

/-! ## add-mvr database helpers (src/add-mvr/app.ts) -/

/-- `checkExistingUser`: look up the Subject by license number, then check
whether its current record was uploaded within the last 30 days
(`date_uploaded >= now - 30 days`, inclusive). -/
def checkExistingUser (st : Store) (driversLicense : String) (today : Int) :
    Option Nat × Option Nat × Bool :=
  match st.users.find? (fun u => u.drivers_license_number == driversLicense) with
  | none => (none, none, false)
  | some u =>
    match u.current_mvr_id with
    | none => (some u.id, none, false)
    | some currentMvrId =>
      if currentMvrId = 0 then (some u.id, some currentMvrId, false)
      else
        let thirtyDaysAgo := today - 30
        let hasRecentMvr := st.mvr_records.any
          (fun r => r.id == currentMvrId && decide (thirtyDaysAgo ≤ r.date_uploaded))
        (some u.id, some currentMvrId, hasRecentMvr)

/-- `createMvrRecord` (single add-mvr variant): INSERT INTO mvr_records,
with the source's `||` defaults, `date_uploaded = NOW()`, returning the
fresh id. -/
def createMvrRecord (st : Store) (mvrData : MVRData) (company_id : String)
    (today : Int) : Store × Nat :=
  let id := st.nextMvrId
  let row : MvrRow :=
    { id := id,
      claim_number := jsStrOrNull mvrData.claim_number,
      order_id := jsStrOrNull mvrData.order_id,
      order_date := mvrData.order_date.getD today,
      report_date := mvrData.report_date.getD today,
      reference_number := jsStrOrNull mvrData.reference_number,
      system_use := jsStrOrNull mvrData.system_use,
      mvr_type := jsStrOrNull mvrData.mvr_type,
      state_code := mvrData.state_code,
      purpose := jsStrOrNull mvrData.purpose,
      time_frame := jsStrOrNull mvrData.time_frame,
      is_certified := jsBoolOr mvrData.is_certified false,
      total_points := jsIntOr mvrData.total_points 0,
      date_uploaded := today,
      company_id := company_id,
      consent := jsBoolOr mvrData.consent false,
      price_paid := jsIntOrNull mvrData.price_paid,
      redisclosure_authorization := jsBoolOr mvrData.redisclosure_authorization false,
      storage_limitations := jsIntOr mvrData.storage_limitations 5 }
  ({ st with mvr_records := st.mvr_records ++ [row], nextMvrId := id + 1 }, id)

/-- `createUser`: INSERT INTO users with `current_mvr_id` pointing at the new
record, returning the fresh id. -/
def createUser (st : Store) (mvrData : MVRData) (mvrId : Nat) : Store × Nat :=
  let id := st.nextUserId
  let row : UserRow :=
    { id := id,
      drivers_license_number := mvrData.drivers_license_number,
      full_legal_name := mvrData.full_legal_name,
      birthdate := mvrData.birthdate,
      weight := mvrData.weight,
      sex := mvrData.sex,
      height := mvrData.height,
      hair_color := mvrData.hair_color,
      eye_color := mvrData.eye_color,
      medical_information := jsStrOrNull mvrData.medical_information,
      address := jsStrOrNull mvrData.address,
      city := jsStrOrNull mvrData.city,
      issued_state_code := mvrData.issued_state_code,
      zip := jsIntOrNull mvrData.zip,
      phone_number := jsIntOrNull mvrData.phone_number,
      email := jsStrOrNull mvrData.email,
      current_mvr_id := some mvrId }
  ({ st with users := st.users ++ [row], nextUserId := id + 1 }, id)

/-- `updateUserMvrId`: UPDATE users SET current_mvr_id WHERE id matches. -/
def updateUserMvrId (st : Store) (userId : Nat) (mvrId : Nat) : Store :=
  { st with users := (st.users.map
      (fun u => if u.id = userId then { u with current_mvr_id := some mvrId } else u)) }

/-- `addDriverLicenseInfo`: skipped entirely when no license field is
truthy. -/
def addDriverLicenseInfo (st : Store) (mvrData : MVRData) (mvrId : Nat) : Store :=
  if !strTruthy mvrData.license_class && !strTruthy mvrData.issue_date &&
     !strTruthy mvrData.expiration_date then
    st
  else
    { st with drivers_license_info := (st.drivers_license_info ++
        [{ mvr_id := mvrId,
           license_class := jsStrOrNull mvrData.license_class,
           issue_date := jsStrOrNull mvrData.issue_date,
           expiration_date := jsStrOrNull mvrData.expiration_date,
           status := jsStrOrNull mvrData.status,
           restrictions := jsStrOrNull mvrData.restrictions }]) }

/-- `addTrafficViolations`: one INSERT per entry, in input order. -/
def addTrafficViolations (st : Store) (violations : List ViolationData)
    (mvrId : Nat) : Store :=
  { st with traffic_violations := (st.traffic_violations ++ violations.map
      (fun v => { mvr_id := mvrId,
                  violation_date := v.violation_date,
                  conviction_date := jsIntOrNull v.conviction_date,
                  location := jsStrOrNull v.location,
                  points_assessed := jsIntOr v.points_assessed 0,
                  violation_code := jsStrOrNull v.violation_code,
                  description := jsStrOrNull v.description })) }

def addWithdrawals (st : Store) (ws : List WithdrawalData) (mvrId : Nat) : Store :=
  { st with withdrawals := (st.withdrawals ++ ws.map
      (fun w => { mvr_id := mvrId,
                  effective_date := w.effective_date,
                  eligibility_date := jsIntOrNull w.eligibility_date,
                  action_type := jsStrOrNull w.action_type,
                  reason := jsStrOrNull w.reason })) }

def addAccidents (st : Store) (accs : List AccidentData) (mvrId : Nat) : Store :=
  { st with accident_reports := (st.accident_reports ++ accs.map
      (fun a => { mvr_id := mvrId,
                  accident_date := a.accident_date,
                  location := jsStrOrNull a.location,
                  acd_code := jsStrOrNull a.acd_code,
                  description := jsStrOrNull a.description })) }

def addTrafficCrimes (st : Store) (cs : List CrimeData) (mvrId : Nat) : Store :=
  { st with traffic_crimes := (st.traffic_crimes ++ cs.map
      (fun c => { mvr_id := mvrId,
                  crime_date := c.crime_date,
                  conviction_date := jsIntOrNull c.conviction_date,
                  offense_code := jsStrOrNull c.offense_code,
                  description := jsStrOrNull c.description })) }

/-- `getUserData`: SELECT the user row by id (the code throws when absent). -/
def getUserData (st : Store) (userId : Nat) : Option UserRow :=
  st.users.find? (fun u => u.id == userId)

/-! ## Audit events (the Firehose payloads the handlers emit) -/

structure AuditEvent where
  operation : String
  company_id : String
  success : Bool
  operation_category : String
  drivers_license_number : Option String
  mvr_id : Option Nat
  deriving Repr, DecidableEq

/-- `sendAuditLog` of add-mvr: success WRITE event tagged with the operation
type, carrying the re-read Subject's license number and current record id. -/
def mkAddMvrAuditEvent (userData : UserRow) (company_id : String)
    (operation : String) : AuditEvent :=
  { operation := operation,
    company_id := company_id,
    success := true,
    operation_category := "WRITE",
    drivers_license_number := some userData.drivers_license_number,
    mvr_id := userData.current_mvr_id }

/-- `sendFailureAuditLog` of add-mvr. -/
def mkAddMvrFailureEvent (driversLicense : String) (company_id : String) :
    AuditEvent :=
  { operation := "CREATE_MVR_FAILED",
    company_id := company_id,
    success := false,
    operation_category := "WRITE",
    drivers_license_number := some driversLicense,
    mvr_id := none }

/-! ## add-mvr request phase 1: parse and validate (lambdaHandler, try block) -/

/-- The `lambdaHandler` validation phase of add-mvr: top-level schema first,
then presence of `mvr`, then the nested MVR schema.  The error is the
HttpError status and message the handler returns. -/
def addMvrValidate (body : JObj) : Except (Nat × String) Unit := do
  let _ ← validateOrThrow body schemaAddMvr 400
  if !jTruthyOpt (jget body "mvr") then
    throw (400, "mvr data is required")
  let mvrFields :=
    match jget body "mvr" with
    | some (JValue.jObj fields) => fields
    | _ => []
  validateOrThrow mvrFields schemaAddMvrData 400

/-! ## add-mvr phase 2: the transactional upsert (lambdaHandler, main block) -/

structure AddMvrRequest where
  company_id : String
  permissible_purpose : String
  price_paid : Int
  redisclosure_authorization : Bool
  storage_limitations : Option Int
  consent : Option Bool
  mvr : MVRData
  deriving Repr, DecidableEq

structure AddMvrOutcome where
  statusCode : Nat
  message : String
  mvr_id : Option Nat
  user_id : Option Nat
  operationType : String
  events : List AuditEvent
  deriving Repr, DecidableEq

/-- The add-mvr business phase: storage-limitation defaulting, duplicate
check, then the transactional insert cascade, mirroring
`src/add-mvr/app.ts` lines 567–712. -/
def addMvrProcess (req : AddMvrRequest) (st : Store) (today : Int) :
    Store × AddMvrOutcome :=
  let storage_limitations :=
    match req.storage_limitations with
    | none => (5 * 365 : Int)
    | some v => if v < 0 then (5 * 365 : Int) else v
  let mvrData := { req.mvr with
    consent := req.consent,
    price_paid := some req.price_paid,
    redisclosure_authorization := some req.redisclosure_authorization,
    storage_limitations := some storage_limitations }
  match checkExistingUser st mvrData.drivers_license_number today with
  | (some userId, _, true) =>
    -- duplicate within the 30-day window: COMMIT with no writes
    (match getUserData st userId with
     | some userData =>
       (st, { statusCode := 200,
              message := "MVR uploaded less than 30 days ago",
              mvr_id := none, user_id := none,
              operationType := "DUPLICATE_MVR_ATTEMPT",
              events := [mkAddMvrAuditEvent userData req.company_id
                          "DUPLICATE_MVR_ATTEMPT"] })
     | none =>
       -- getUserData threw: caught, ROLLBACK (after COMMIT), 500
       (st, { statusCode := 500,
              message := "User with id " ++ toString userId ++ " not found",
              mvr_id := none, user_id := none, operationType := "",
              events := [mkAddMvrFailureEvent mvrData.drivers_license_number
                          req.company_id] }))
  | (userId?, _, _) =>
    let (st1, mvrId) := createMvrRecord st mvrData req.company_id today
    let (st2, finalUserId, operationType) :=
      match userId? with
      | some userId => (updateUserMvrId st1 userId mvrId, userId, "UPDATE_MVR")
      | none =>
        let (st', uid) := createUser st1 mvrData mvrId
        (st', uid, "CREATE_MVR")
    let st3 := addDriverLicenseInfo st2 mvrData mvrId
    let st4 := addTrafficViolations st3 mvrData.violations mvrId
    let st5 := addWithdrawals st4 mvrData.withdrawals mvrId
    let st6 := addAccidents st5 mvrData.accidents mvrId
    let st7 := addTrafficCrimes st6 mvrData.crimes mvrId
    -- COMMIT, then the post-commit read for the audit log
    match getUserData st7 finalUserId with
    | some userData =>
      (st7, { statusCode := 201,
              message := (match userId? with
                          | some _ => "User MVR updated successfully"
                          | none => "New user and MVR created successfully"),
              mvr_id := some mvrId, user_id := some finalUserId,
              operationType := operationType,
              events := [mkAddMvrAuditEvent userData req.company_id
                          operationType] })
    | none =>
      (st7, { statusCode := 500,
              message := "User with id " ++ toString finalUserId ++ " not found",
              mvr_id := none, user_id := none, operationType := "",
              events := [mkAddMvrFailureEvent mvrData.drivers_license_number
                          req.company_id] })

/-! ## get-mvr (src/get-mvr/app.ts, final variant)

`ORDER BY <date> DESC` is modelled by a stable insertion sort on the key. -/

def insertDescBy {α : Type} (key : α → Int) (x : α) : List α → List α
  | [] => [x]
  | y :: ys => if key y < key x then x :: y :: ys else y :: insertDescBy key x ys

def sortDescBy {α : Type} (key : α → Int) : List α → List α
  | [] => []
  | x :: xs => insertDescBy key x (sortDescBy key xs)

structure LicenseInfoOut where
  license_class : Option String
  issue_date : Option String
  expiration_date : Option String
  status : Option String
  restrictions : Option String
  deriving Repr, DecidableEq

structure TransactionOut where
  seller_id : String
  buyer_id : String
  state_code : String
  deriving Repr, DecidableEq

/-- The `CompleteMVRRecord` response body assembled by get-mvr. -/
structure MvrAggregate where
  drivers_license_number : String
  full_legal_name : String
  birthdate : String
  weight : String
  sex : String
  height : String
  hair_color : String
  eye_color : String
  medical_information : Option String
  address : Option String
  city : Option String
  issued_state_code : String
  zip : Option Int
  phone_number : Option Int
  email : Option String
  claim_number : Option String
  order_id : Option String
  order_date : Int
  report_date : Int
  reference_number : Option String
  system_use : Option String
  mvr_type : Option String
  state_code : String
  purpose : Option String
  time_frame : Option String
  is_certified : Bool
  total_points : Int
  consent : Bool
  price_paid : Option Int
  redisclosure_authorization : Bool
  storage_limitations : Int
  licenseInfo : Option LicenseInfoOut
  violations : List ViolationRow
  withdrawals : List WithdrawalRow
  accidents : List AccidentRow
  crimes : List CrimeRow
  transaction : Option TransactionOut
  deriving Repr, DecidableEq

/-- The aggregate-assembly part of the get-mvr handler: joins on the current
record id, the four child collections ordered by primary date descending,
license info present only when `license_class` is truthy, transaction info
only when `seller_id` is truthy. -/
def assembleAggregate (st : Store) (u : UserRow) (r : MvrRow) : MvrAggregate :=
  let dli := st.drivers_license_info.find? (fun li => li.mvr_id == r.id)
  let txn := st.transactions.find? (fun t => t.mvr_id == r.id)
  { drivers_license_number := u.drivers_license_number,
    full_legal_name := u.full_legal_name,
    birthdate := u.birthdate,
    weight := u.weight,
    sex := u.sex,
    height := u.height,
    hair_color := u.hair_color,
    eye_color := u.eye_color,
    medical_information := u.medical_information,
    address := u.address,
    city := u.city,
    issued_state_code := u.issued_state_code,
    zip := u.zip,
    phone_number := u.phone_number,
    email := u.email,
    claim_number := r.claim_number,
    order_id := r.order_id,
    order_date := r.order_date,
    report_date := r.report_date,
    reference_number := r.reference_number,
    system_use := r.system_use,
    mvr_type := r.mvr_type,
    state_code := r.state_code,
    purpose := r.purpose,
    time_frame := r.time_frame,
    is_certified := r.is_certified,
    total_points := r.total_points,
    consent := r.consent,
    price_paid := r.price_paid,
    redisclosure_authorization := r.redisclosure_authorization,
    storage_limitations := r.storage_limitations,
    licenseInfo :=
      (match dli with
       | some li =>
         if strTruthy li.license_class then
           some { license_class := li.license_class,
                  issue_date := li.issue_date,
                  expiration_date := li.expiration_date,
                  status := li.status,
                  restrictions := li.restrictions }
         else none
       | none => none),
    violations := sortDescBy (fun v => v.violation_date)
      (st.traffic_violations.filter (fun v => v.mvr_id == r.id)),
    withdrawals := sortDescBy (fun w => w.effective_date)
      (st.withdrawals.filter (fun w => w.mvr_id == r.id)),
    accidents := sortDescBy (fun a => a.accident_date)
      (st.accident_reports.filter (fun a => a.mvr_id == r.id)),
    crimes := sortDescBy (fun c => c.crime_date)
      (st.traffic_crimes.filter (fun c => c.mvr_id == r.id)),
    transaction :=
      (match txn with
       | some t =>
         if t.seller_id ≠ "" then
           some { seller_id := t.seller_id, buyer_id := t.buyer_id,
                  state_code := t.state_code }
         else none
       | none => none) }

inductive GetMvrBody where
  | err (message : String)
  | record (agg : MvrAggregate)
  deriving Repr, DecidableEq

structure GetMvrOutcome where
  statusCode : Nat
  body : GetMvrBody
  deriving Repr, DecidableEq

/-- The get-mvr business phase (post-validation): Subject lookup, current
record lookup, freshness filter (`report_date >= cutoff OR order_date >=
cutoff` with `cutoff = now - days`), then aggregate assembly. -/
def getMvrProcess (drivers_license_number : String) (days : Nat) (st : Store)
    (today : Int) : GetMvrOutcome :=
  match st.users.find?
      (fun u => u.drivers_license_number == drivers_license_number) with
  | none =>
    { statusCode := 404,
      body := GetMvrBody.err "No user found with this driver's license number" }
  | some userData =>
    match userData.current_mvr_id with
    | none =>
      { statusCode := 404,
        body := GetMvrBody.err "User found but no MVR ID associated" }
    | some currentMvrId =>
      if currentMvrId = 0 then
        { statusCode := 404,
          body := GetMvrBody.err "User found but no MVR ID associated" }
      else
        let cutoffDate := today - (days : Int)
        match st.mvr_records.find?
            (fun r => r.id == currentMvrId &&
              (decide (cutoffDate ≤ r.report_date) ||
               decide (cutoffDate ≤ r.order_date))) with
        | none =>
          { statusCode := 404,
            body := GetMvrBody.err
              ("No MVR found within the last " ++ toString days ++ " days") }
        | some r =>
          { statusCode := 200,
            body := GetMvrBody.record (assembleAggregate st userData r) }

/-! ## batch-add-mvr (src/batch-add-mvr/app.ts, final variant)

Persistence faults are injected by a per-element oracle: `fault = true`
means the element's `createMvrRecord` INSERT throws.  PostgreSQL aborts the
surrounding transaction after a failed statement, so every later statement
in the same transaction also throws until ROLLBACK; the `aborted` flag
models this poisoning. -/

inductive BatchType where
  | NEW
  | UPDATED
  | SKIPPED
  | ERROR
  deriving Repr, DecidableEq

structure BatchResult where
  success : Bool
  message : String
  rtype : BatchType
  mvr_id : Option Nat
  user_id : Option Nat
  error : Option String
  drivers_license_number : String
  deriving Repr, DecidableEq

/-- Placeholder for the database driver's error message (its exact text is
environment-specific). -/
def dbErrorMessage : String := "database statement failed"

/-- Per-element success audit event (`sendAuditLog` of batch-add-mvr):
emitted inside the loop, while the transaction is still open. -/
def mkBatchAuditEvent (userData : UserRow) (company_id : String)
    (operation : String) : AuditEvent :=
  { operation := operation,
    company_id := company_id,
    success := true,
    operation_category := "WRITE",
    drivers_license_number := some userData.drivers_license_number,
    mvr_id := userData.current_mvr_id }

/-- Per-element failure audit event of batch-add-mvr. -/
def mkBatchFailureEvent (driversLicense : String) (company_id : String) :
    AuditEvent :=
  { operation := "BATCH_CREATE_MVR_FAILED",
    company_id := company_id,
    success := false,
    operation_category := "WRITE",
    drivers_license_number := some driversLicense,
    mvr_id := none }

/-- `createMvrRecord`, batch variant: 18-column insert with an explicit
`date_uploaded` parameter (`mvrData.date_uploaded ? ... : new Date()`). -/
def createMvrRecordBatch (st : Store) (mvrData : MVRData) (company_id : String)
    (today : Int) : Store × Nat :=
  let id := st.nextMvrId
  let row : MvrRow :=
    { id := id,
      claim_number := jsStrOrNull mvrData.claim_number,
      order_id := jsStrOrNull mvrData.order_id,
      order_date := mvrData.order_date.getD today,
      report_date := mvrData.report_date.getD today,
      reference_number := jsStrOrNull mvrData.reference_number,
      system_use := jsStrOrNull mvrData.system_use,
      mvr_type := jsStrOrNull mvrData.mvr_type,
      state_code := mvrData.state_code,
      purpose := jsStrOrNull mvrData.purpose,
      time_frame := jsStrOrNull mvrData.time_frame,
      is_certified := jsBoolOr mvrData.is_certified false,
      total_points := jsIntOr mvrData.total_points 0,
      date_uploaded := mvrData.date_uploaded.getD today,
      company_id := company_id,
      consent := jsBoolOr mvrData.consent false,
      price_paid := jsIntOrNull mvrData.price_paid,
      redisclosure_authorization := jsBoolOr mvrData.redisclosure_authorization false,
      storage_limitations := jsIntOr mvrData.storage_limitations 5 }
  ({ st with mvr_records := st.mvr_records ++ [row], nextMvrId := id + 1 }, id)

/-- `processSingleMvr`: one element of the open batch transaction.  Returns
the updated (store, aborted) pair, the element's result, and the audit
events it emitted. -/
def processSingleMvr (st : Store) (aborted : Bool) (mvrData : MVRData)
    (company_id : String) (today : Int) (fault : Bool) :
    (Store × Bool) × BatchResult × List AuditEvent :=
  if mvrData.drivers_license_number = "" then
    ((st, aborted),
     { success := false, message := "Required fields missing",
       rtype := BatchType.ERROR, mvr_id := none, user_id := none,
       error := some "Driver's license number is required",
       drivers_license_number := "unknown" }, [])
  else if aborted then
    -- the transaction is poisoned: the very first SELECT throws
    ((st, true),
     { success := false, message := "Error processing MVR",
       rtype := BatchType.ERROR, mvr_id := none, user_id := none,
       error := some dbErrorMessage,
       drivers_license_number := mvrData.drivers_license_number },
     [mkBatchFailureEvent mvrData.drivers_license_number company_id])
  else
    match checkExistingUser st mvrData.drivers_license_number today with
    | (some userId, _, true) =>
      ((st, false),
       { success := true, message := "MVR uploaded less than 30 days ago",
         rtype := BatchType.SKIPPED, mvr_id := none, user_id := some userId,
         drivers_license_number := mvrData.drivers_license_number,
         error := none }, [])
    | (userId?, _, _) =>
      if fault then
        -- createMvrRecord throws; the transaction becomes aborted
        ((st, true),
         { success := false, message := "Error processing MVR",
           rtype := BatchType.ERROR, mvr_id := none, user_id := none,
           error := some dbErrorMessage,
           drivers_license_number := mvrData.drivers_license_number },
         [mkBatchFailureEvent mvrData.drivers_license_number company_id])
      else
        let (st1, mvrId) := createMvrRecordBatch st mvrData company_id today
        let (st2, finalUserId) :=
          match userId? with
          | some userId => (updateUserMvrId st1 userId mvrId, userId)
          | none => createUser st1 mvrData mvrId
        let st3 := addDriverLicenseInfo st2 mvrData mvrId
        let st4 := addTrafficViolations st3 mvrData.violations mvrId
        let st5 := addWithdrawals st4 mvrData.withdrawals mvrId
        let st6 := addAccidents st5 mvrData.accidents mvrId
        let st7 := addTrafficCrimes st6 mvrData.crimes mvrId
        let auditEvents :=
          match getUserData st7 finalUserId with
          | some userData =>
            [mkBatchAuditEvent userData company_id
              (match userId? with
               | some _ => "BATCH_UPDATE_MVR"
               | none => "BATCH_CREATE_MVR")]
          | none => []
        ((st7, false),
         { success := true,
           message := (match userId? with
                       | some _ => "User MVR updated successfully"
                       | none => "New user and MVR created successfully"),
           rtype := (match userId? with
                     | some _ => BatchType.UPDATED
                     | none => BatchType.NEW),
           mvr_id := some mvrId, user_id := some finalUserId,
           error := none,
           drivers_license_number := mvrData.drivers_license_number },
         auditEvents)

structure BatchSummary where
  total : Nat
  successful : Nat
  new_records : Nat
  updated_records : Nat
  skipped_records : Nat
  deriving Repr, DecidableEq

structure BatchResponse where
  statusCode : Nat
  message : Option String
  error : Option String
  summary : Option BatchSummary
  results : Option (List BatchResult)
  deriving Repr, DecidableEq

/-- The per-element loop of the batch handler. -/
def batchLoop (payloads : List MVRData) (company_id : String) (today : Int)
    (faults : List Bool) (st : Store) (aborted : Bool) :
    (Store × Bool) × List BatchResult × List AuditEvent :=
  match payloads, faults with
  | [], _ => ((st, aborted), [], [])
  | p :: ps, fs =>
    let fault := fs.headD false
    let ((st', aborted'), r, evs) := processSingleMvr st aborted p company_id today fault
    let ((st'', aborted''), rs, evs') :=
      batchLoop ps company_id today fs.tail st' aborted'
    ((st'', aborted''), r :: rs, evs ++ evs')

/-- `BATCH_PROCESS_COMPLETE` summary event. -/
def mkBatchCompleteEvent (company_id : String) (results : List BatchResult) :
    AuditEvent :=
  { operation := "BATCH_PROCESS_COMPLETE",
    company_id := company_id,
    success := results.all (fun r => r.success),
    operation_category := "WRITE",
    drivers_license_number := none,
    mvr_id := none }

/-- `BATCH_PROCESS_FAILED` event emitted from the batch-level catch block. -/
def mkBatchProcessFailedEvent (company_id : String) : AuditEvent :=
  { operation := "BATCH_PROCESS_FAILED",
    company_id := company_id,
    success := false,
    operation_category := "WRITE",
    drivers_license_number := none,
    mvr_id := none }

/-- The transactional part of the batch handler (BEGIN … COMMIT/ROLLBACK):
any unsuccessful element result throws after the loop, rolling the whole
transaction back while the per-element results list is still returned. -/
def batchProcess (payloads : List MVRData) (company_id : String) (st : Store)
    (today : Int) (faults : List Bool) :
    Store × BatchResponse × List AuditEvent :=
  let ((st', _), results, events) := batchLoop payloads company_id today faults st false
  if results.any (fun r => !r.success) then
    -- throw → catch: ROLLBACK, failure audit event, 500 with the results
    (st,
     { statusCode := 500,
       message := none,
       error := some "One or more MVR records failed to process",
       summary := none,
       results := some results },
     events ++ [mkBatchProcessFailedEvent company_id])
  else
    (st',
     { statusCode := 200,
       message := some ("Processed " ++
         toString (results.filter (fun r => r.success)).length ++ "/" ++
         toString results.length ++ " MVR records successfully"),
       error := none,
       summary := some
         { total := results.length,
           successful := (results.filter (fun r => r.success)).length,
           new_records := (results.filter
             (fun r => r.rtype == BatchType.NEW)).length,
           updated_records := (results.filter
             (fun r => r.rtype == BatchType.UPDATED)).length,
           skipped_records := (results.filter
             (fun r => r.rtype == BatchType.SKIPPED)).length },
       results := some results },
     events ++ [mkBatchCompleteEvent company_id results])

/-! ## batch-add-mvr phase 1: request validation -/

/-- The validation phase of the batch handler: the batch schema first, then
each payload against the MVR schema, the first failure reported with its
array index. -/
def batchValidateMvrs (mvrs : List JObj) (i : Nat) : Except (Nat × String) Unit :=
  match mvrs with
  | [] => Except.ok ()
  | m :: ms =>
    match validateOrThrow m schemaAddMvrData 400 with
    | Except.ok _ => batchValidateMvrs ms (i + 1)
    | Except.error (_, msg) =>
      Except.error (400, "Validation failed for MVR at index " ++ toString i ++
        ": " ++ msg)

/-- Extract the element objects of `batch_mvrs` (field access on a
non-object yields only `undefined` values downstream). -/
def jObjFields : JValue → JObj
  | JValue.jObj fields => fields
  | _ => []

def batchValidate (body : JObj) : Except (Nat × String) Unit := do
  let _ ← validateOrThrow body schemaBatchAddMvr 400
  let mvrs :=
    match jget body "batch_mvrs" with
    | some (JValue.jArr elems) => elems.map jObjFields
    | _ => []
  batchValidateMvrs mvrs 0

/-! ## JObj → typed extraction (the untyped-to-typed boundary of the
handlers; after validation these reads are exact) -/

def jStrD (o : JObj) (k : String) : String :=
  match jget o k with
  | some (JValue.jStr s) => s
  | _ => ""

def jStrOpt (o : JObj) (k : String) : Option String :=
  match jget o k with
  | some (JValue.jStr s) => some s
  | _ => none

def jIntD (o : JObj) (k : String) : Int :=
  match jget o k with
  | some (JValue.jNum n) => n
  | _ => 0

def jIntOpt (o : JObj) (k : String) : Option Int :=
  match jget o k with
  | some (JValue.jNum n) => some n
  | _ => none

def jBoolD (o : JObj) (k : String) : Bool :=
  match jget o k with
  | some (JValue.jBool b) => b
  | _ => false

def jBoolOpt (o : JObj) (k : String) : Option Bool :=
  match jget o k with
  | some (JValue.jBool b) => some b
  | _ => none

def jArrObjs (o : JObj) (k : String) : List JObj :=
  match jget o k with
  | some (JValue.jArr elems) => elems.map jObjFields
  | _ => []

def violationOfJObj (o : JObj) : ViolationData :=
  { violation_date := jIntD o "violation_date",
    conviction_date := jIntOpt o "conviction_date",
    location := jStrOpt o "location",
    points_assessed := jIntOpt o "points_assessed",
    violation_code := jStrOpt o "violation_code",
    description := jStrOpt o "description" }

def withdrawalOfJObj (o : JObj) : WithdrawalData :=
  { effective_date := jIntD o "effective_date",
    eligibility_date := jIntOpt o "eligibility_date",
    action_type := jStrOpt o "action_type",
    reason := jStrOpt o "reason" }

def accidentOfJObj (o : JObj) : AccidentData :=
  { accident_date := jIntD o "accident_date",
    location := jStrOpt o "location",
    acd_code := jStrOpt o "acd_code",
    description := jStrOpt o "description" }

def crimeOfJObj (o : JObj) : CrimeData :=
  { crime_date := jIntD o "crime_date",
    conviction_date := jIntOpt o "conviction_date",
    offense_code := jStrOpt o "offense_code",
    description := jStrOpt o "description" }

def mvrDataOfJObj (o : JObj) : MVRData :=
  { drivers_license_number := jStrD o "drivers_license_number",
    full_legal_name := jStrD o "full_legal_name",
    birthdate := jStrD o "birthdate",
    weight := jStrD o "weight",
    sex := jStrD o "sex",
    height := jStrD o "height",
    hair_color := jStrD o "hair_color",
    eye_color := jStrD o "eye_color",
    medical_information := jStrOpt o "medical_information",
    address := jStrOpt o "address",
    city := jStrOpt o "city",
    issued_state_code := jStrD o "issued_state_code",
    zip := jIntOpt o "zip",
    phone_number := jIntOpt o "phone_number",
    email := jStrOpt o "email",
    claim_number := jStrOpt o "claim_number",
    order_id := jStrOpt o "order_id",
    order_date := jIntOpt o "order_date",
    report_date := jIntOpt o "report_date",
    reference_number := jStrOpt o "reference_number",
    system_use := jStrOpt o "system_use",
    mvr_type := jStrOpt o "mvr_type",
    state_code := jStrD o "state_code",
    purpose := jStrOpt o "purpose",
    time_frame := jStrOpt o "time_frame",
    is_certified := jBoolOpt o "is_certified",
    total_points := jIntOpt o "total_points",
    consent := jBoolOpt o "consent",
    price_paid := jIntOpt o "price_paid",
    redisclosure_authorization := jBoolOpt o "redisclosure_authorization",
    storage_limitations := jIntOpt o "storage_limitations",
    license_class := jStrOpt o "license_class",
    issue_date := jStrOpt o "issue_date",
    expiration_date := jStrOpt o "expiration_date",
    status := jStrOpt o "status",
    restrictions := jStrOpt o "restrictions",
    date_uploaded := jIntOpt o "date_uploaded",
    violations := (jArrObjs o "violations").map violationOfJObj,
    withdrawals := (jArrObjs o "withdrawals").map withdrawalOfJObj,
    accidents := (jArrObjs o "accidents").map accidentOfJObj,
    crimes := (jArrObjs o "crimes").map crimeOfJObj }

/-! ## Combined handlers (validation phase, then business phase) -/

/-- Response of the single add-mvr handler as seen by the caller, paired
with the resulting store and emitted audit events. -/
structure AddMvrHttpResult where
  store : Store
  statusCode : Nat
  message : String
  events : List AuditEvent
  deriving Repr, DecidableEq

/-- The full add-mvr lambdaHandler: validate, then run the transactional
phase.  A validation failure returns before any store access. -/
def addMvrHandler (body : JObj) (st : Store) (today : Int) : AddMvrHttpResult :=
  match addMvrValidate body with
  | Except.error (code, msg) =>
    { store := st, statusCode := code, message := msg, events := [] }
  | Except.ok _ =>
    let storage0 := jIntOpt body "storage_limitations"
    let req : AddMvrRequest :=
      { company_id := jStrD body "company_id",
        permissible_purpose := jStrD body "permissible_purpose",
        price_paid := jIntD body "price_paid",
        redisclosure_authorization := jBoolD body "redisclosure_authorization",
        storage_limitations := storage0,
        consent := jBoolOpt body "consent",
        mvr := mvrDataOfJObj (jObjFields ((jget body "mvr").getD JValue.jNull)) }
    let (st', outcome) := addMvrProcess req st today
    { store := st', statusCode := outcome.statusCode,
      message := outcome.message, events := outcome.events }

/-- The full batch-add-mvr lambdaHandler: validate (batch schema, then every
payload, index-qualified), then run the batch transaction. -/
def batchAddMvrHandler (body : JObj) (st : Store) (today : Int)
    (faults : List Bool) : Store × BatchResponse × List AuditEvent :=
  match batchValidate body with
  | Except.error (code, msg) =>
    (st,
     { statusCode := code, message := none, error := some msg,
       summary := none, results := none }, [])
  | Except.ok _ =>
    let company_id := jStrD body "company_id"
    let payloads := (jArrObjs body "batch_mvrs").map mvrDataOfJObj
    batchProcess payloads company_id st today faults

/-! ## log-processor (src/log-processor/app.ts), the AuditPartitioner -/

/-- Calendar date parts of an event timestamp. -/
structure Timestamp where
  year : Nat
  month : Nat
  day : Nat
  deriving Repr, DecidableEq

/-- `padStart(2, '0')` of a decimal rendering. -/
def padTwo (n : Nat) : String :=
  let s := toString n
  if s.length < 2 then "0" ++ s else s

/-- Characters matched by `[a-zA-Z0-9_-]`. -/
def isAllowedIdChar (c : Char) : Bool :=
  c.isAlpha || c.isDigit || c == '_' || c == '-'

/-- `.replace(/[^a-zA-Z0-9_-]/g, '_').substring(0, 50)`. -/
def sanitizeId (s : String) : String :=
  String.mk (((s.data.map (fun c => if isAllowedIdChar c then c else '_')).take 50))

/-- `a || b || d` over possibly-absent strings (empty strings are falsy). -/
def jsStrFallback (a b : Option String) (d : String) : String :=
  if strTruthy a then a.getD "" else if strTruthy b then b.getD "" else d

/-- `company=<id>/action=<op>/year=<yyyy>/month=<mm>/day=<dd>`. -/
def generateCompanyS3Partition (companyId action year month day : String) :
    String :=
  "company=" ++ companyId ++ "/action=" ++ action ++ "/year=" ++ year ++
  "/month=" ++ month ++ "/day=" ++ day

/-- A raw operation-log event as read by the AuditPartitioner (the fields
`processLogEntry` consumes). -/
structure RawLogEntry where
  timestamp : Timestamp
  operation : Option String
  company_id : Option String
  user_id : Option String
  drivers_license_number : Option String
  success : Option Bool
  deriving Repr, DecidableEq

/-- The fields of `ProcessedLogRecord` the claims are about. -/
structure ProcessedLogRecord where
  timestamp : Timestamp
  operation : String
  company_id : String
  drivers_license_number : Option String
  success : Bool
  s3_partition : String
  year : String
  month : String
  day : String
  action : String
  deriving Repr, DecidableEq

/-- `processLogEntry` of the log-processor: company-id fallback chain,
sanitisation, partition-key computation. -/
def processLogEntry (logEntry : RawLogEntry) : ProcessedLogRecord :=
  let dateYear := toString logEntry.timestamp.year
  let dateMonth := padTwo logEntry.timestamp.month
  let dateDay := padTwo logEntry.timestamp.day
  let companyId0 := jsStrFallback logEntry.company_id logEntry.user_id "unknown"
  let companyId1 := sanitizeId companyId0
  let companyId := if companyId1 = "" then "unknown" else companyId1
  let partitionAction :=
    match logEntry.operation with
    | some s => s
    | none => "undefined"
  { timestamp := logEntry.timestamp,
    operation := (match logEntry.operation with
                  | some s => if s = "" then "UNKNOWN" else s
                  | none => "UNKNOWN"),
    company_id := companyId,
    drivers_license_number := logEntry.drivers_license_number,
    success := logEntry.success.getD true,
    s3_partition := generateCompanyS3Partition companyId partitionAction
      dateYear dateMonth dateDay,
    year := dateYear,
    month := dateMonth,
    day := dateDay,
    action := (match logEntry.operation with
               | some s => if s = "" then "unknown" else s
               | none => "unknown") }

/-! ## mirroring-processor (src/mirroring-processor/app.ts), the MirrorRouter -/

/-- `needle` occurs as a contiguous substring of `hay` (`String.includes`). -/
def containsSeq (hay need : List Char) : Bool :=
  match hay with
  | [] => need.isEmpty
  | _ :: t => need.isPrefixOf hay || containsSeq t need

def jsIncludes (s sub : String) : Bool :=
  containsSeq s.data sub.data

structure AccessorInfo where
  company_id : String
  deriving Repr, DecidableEq

structure SellerInfo where
  seller_id : String
  buyer_id : String
  transaction_state : String
  company_id : Option String
  deriving Repr, DecidableEq

/-- An audit-log record as parsed by the mirroring processor. -/
structure AuditLogRecord where
  timestamp : Timestamp
  operation : Option String
  company_id : String
  accessor : Option AccessorInfo
  seller : Option SellerInfo
  deriving Repr, DecidableEq

structure PartitionKeys where
  company_id : String
  action : String
  year : String
  month : String
  day : String
  deriving Repr, DecidableEq

inductive MirrorOutData where
  /-- the input record's data, re-emitted unchanged -/
  | original (entry : AuditLogRecord)
  /-- the synthetic seller-mirror payload -/
  | mirror (entry : AuditLogRecord) (target_company_id : String)
      (retrieved_by_company_id : String)
  deriving Repr, DecidableEq

structure MirrorOutRecord where
  recordId : Nat
  result : String
  data : MirrorOutData
  partitionKeys : Option PartitionKeys
  deriving Repr, DecidableEq

/-- One iteration of the mirroring processor's loop: every branch pushes
exactly one output record for the input record. -/
def mirrorOne (recordId : Nat) (logEntry : AuditLogRecord) : MirrorOutRecord :=
  let operationIsGet :=
    match logEntry.operation with
    | none => false
    | some op => op ≠ "" && jsIncludes op "GET_MVR"
  if !operationIsGet then
    { recordId := recordId, result := "Dropped",
      data := MirrorOutData.original logEntry, partitionKeys := none }
  else
    let accessorCompanyId := logEntry.accessor.map (fun a => a.company_id)
    let sellerCompanyId := logEntry.seller.bind (fun s => s.company_id)
    if !strTruthy sellerCompanyId then
      { recordId := recordId, result := "Dropped",
        data := MirrorOutData.original logEntry, partitionKeys := none }
    else
      let seller := sellerCompanyId.getD ""
      if accessorCompanyId == some seller then
        { recordId := recordId, result := "Dropped",
          data := MirrorOutData.original logEntry, partitionKeys := none }
      else
        { recordId := recordId, result := "Ok",
          data := MirrorOutData.mirror logEntry seller
            (match accessorCompanyId with
             | some a => if a = "" then "unknown" else a
             | none => "unknown"),
          partitionKeys := some
            { company_id := seller,
              action := "MVR-RETRIEVED",
              year := toString logEntry.timestamp.year,
              month := padTwo logEntry.timestamp.month,
              day := padTwo logEntry.timestamp.day } }

/-- The mirroring processor's handler over a batch of records. -/
def mirrorHandler (records : List (Nat × AuditLogRecord)) : List MirrorOutRecord :=
  records.map (fun r => mirrorOne r.1 r.2)

/-! ## Concrete fixtures used by witnesses and counterexamples -/

/-- An audit event with an explicit company id that needs sanitising. -/
def eC9 : RawLogEntry :=
  { timestamp := { year := 2025, month := 3, day := 7 },
    operation := some "GET_MVR",
    company_id := some "acme corp",
    user_id := none,
    drivers_license_number := some "DL123",
    success := some true }

/-- An audit event whose `company_id` field is present but empty. -/
def eC9bad : RawLogEntry :=
  { timestamp := { year := 2025, month := 1, day := 2 },
    operation := some "GET_MVR",
    company_id := some "",
    user_id := some "u1",
    drivers_license_number := none,
    success := some true }

/-- A READ audit record supplied by company `"A"` and accessed by a
different company `"B"`. -/
def recC1 : AuditLogRecord :=
  { timestamp := { year := 2025, month := 6, day := 15 },
    operation := some "GET_MVR",
    company_id := "B",
    accessor := some { company_id := "B" },
    seller := some { seller_id := "A", buyer_id := "B",
                     transaction_state := "CA", company_id := some "A" } }


/-- A well-formed ingestion request for license `"DL1"`. -/
def mvrW : MVRData :=
  { drivers_license_number := "DL1", full_legal_name := "John Doe",
    birthdate := "1990-05-15", weight := "180", sex := "M", height := "510",
    hair_color := "Brown", eye_color := "Blue", issued_state_code := "CA",
    state_code := "CA" }

def reqW : AddMvrRequest :=
  { company_id := "ACME", permissible_purpose := "UNDERWRITING",
    price_paid := 25, redisclosure_authorization := true,
    storage_limitations := some 1825, consent := some true, mvr := mvrW }

/-- A Subject row for license `"DL1"` whose current record is id 1. -/
def uDup : UserRow :=
  { id := 1, drivers_license_number := "DL1", full_legal_name := "John Doe",
    birthdate := "1990-05-15", weight := "180", sex := "M", height := "510",
    hair_color := "Brown", eye_color := "Blue", medical_information := none,
    address := none, city := none, issued_state_code := "CA", zip := none,
    phone_number := none, email := none, current_mvr_id := some 1 }

/-- An MVR record uploaded on day 100. -/
def rDup : MvrRow :=
  { id := 1, claim_number := none, order_id := none, order_date := 100,
    report_date := 100, reference_number := none, system_use := none,
    mvr_type := none, state_code := "CA", purpose := none, time_frame := none,
    is_certified := false, total_points := 0, date_uploaded := 100,
    company_id := "ACME", consent := true, price_paid := some 25,
    redisclosure_authorization := true, storage_limitations := 1825 }

/-- A store already holding the Subject `"DL1"` with its current record. -/
def stDup : Store :=
  { Store.empty with
    users := [uDup], mvr_records := [rDup],
    nextUserId := 2, nextMvrId := 2 }

/-- `reqW` with an explicit `storage_limitations` of 0 days. -/
def reqSL0 : AddMvrRequest :=
  { reqW with storage_limitations := some 0 }

/-- The MVR sub-object of a well-formed request body. -/
def mvrObjW : JObj :=
  [("drivers_license_number", JValue.jStr "DL1"),
   ("full_legal_name", JValue.jStr "John Doe"),
   ("birthdate", JValue.jStr "1990-05-15"),
   ("weight", JValue.jStr "180"),
   ("sex", JValue.jStr "M"),
   ("height", JValue.jStr "510"),
   ("hair_color", JValue.jStr "Brown"),
   ("eye_color", JValue.jStr "Blue"),
   ("issued_state_code", JValue.jStr "CA"),
   ("state_code", JValue.jStr "CA")]

/-- A request body that is valid except for a negative
`storage_limitations`. -/
def bodyNeg : JObj :=
  [("company_id", JValue.jStr "ACME"),
   ("permissible_purpose", JValue.jStr "UNDERWRITING"),
   ("price_paid", JValue.jNum 25),
   ("redisclosure_authorization", JValue.jBool true),
   ("storage_limitations", JValue.jNum (-10)),
   ("mvr", JValue.jObj mvrObjW)]

/-- The defaulting facts C5 asserts about a freshly inserted MVR record. -/
def RowDefaults (req : AddMvrRequest) (today : Int) (row : MvrRow) : Prop :=
  (req.mvr.order_date = none → row.order_date = today) ∧
  (∀ d : Int, req.mvr.order_date = some d → row.order_date = d) ∧
  (req.mvr.report_date = none → row.report_date = today) ∧
  (∀ d : Int, req.mvr.report_date = some d → row.report_date = d) ∧
  (req.mvr.is_certified = none → row.is_certified = false) ∧
  (req.mvr.total_points = none → row.total_points = 0) ∧
  (req.storage_limitations = none → row.storage_limitations = 5 * 365) ∧
  (∀ v : Int, req.storage_limitations = some v → 0 < v →
    row.storage_limitations = v) ∧
  (req.storage_limitations = some 0 → row.storage_limitations = 5)

/-- Subject fixture for the freshness-filter claim. -/
def uC4 : UserRow :=
  { uDup with id := 1, drivers_license_number := "DL9", current_mvr_id := some 1 }

/-- A record whose report and order dates are 31 days before day 100. -/
def rC4 : MvrRow :=
  { rDup with id := 1, order_date := 69, report_date := 69, date_uploaded := 69 }

def liC4 : LicenseInfoRow :=
  { mvr_id := 1, license_class := some "C", issue_date := some "2020-01-01",
    expiration_date := some "2030-01-01", status := some "VALID",
    restrictions := none }

def tvC4 : ViolationRow :=
  { mvr_id := 1, violation_date := 50, conviction_date := none,
    location := some "LA", points_assessed := 2,
    violation_code := some "VC22350", description := some "Speeding" }

def txC4 : TransactionRow :=
  { mvr_id := 1, seller_id := "A", buyer_id := "B", state_code := "CA" }

def stC4 : Store :=
  { Store.empty with
    users := [uC4], mvr_records := [rC4],
    drivers_license_info := [liC4],
    traffic_violations := [tvC4],
    transactions := [txC4],
    nextUserId := 2, nextMvrId := 2 }

/-- Batch element: a fully valid payload (Alice). -/
def mvrObjAlice : JObj :=
  [("drivers_license_number", JValue.jStr "DL111111111"),
   ("full_legal_name", JValue.jStr "Alice Smith"),
   ("birthdate", JValue.jStr "1985-03-20"),
   ("weight", JValue.jStr "140"),
   ("sex", JValue.jStr "F"),
   ("height", JValue.jStr "505"),
   ("hair_color", JValue.jStr "Blonde"),
   ("eye_color", JValue.jStr "Green"),
   ("issued_state_code", JValue.jStr "NY"),
   ("state_code", JValue.jStr "NY")]

/-- Batch element: Bob, missing `drivers_license_number`. -/
def mvrObjNoDL : JObj :=
  [("full_legal_name", JValue.jStr "Bob Johnson"),
   ("birthdate", JValue.jStr "1992-11-15"),
   ("weight", JValue.jStr "190"),
   ("sex", JValue.jStr "M"),
   ("height", JValue.jStr "600"),
   ("hair_color", JValue.jStr "Black"),
   ("eye_color", JValue.jStr "Brown"),
   ("issued_state_code", JValue.jStr "TX"),
   ("state_code", JValue.jStr "TX")]

/-- A batch request of 2 payloads where index 1 is missing the license. -/
def bodyBatch36 : JObj :=
  [("company_id", JValue.jStr "ACME_CORP_123"),
   ("permissible_purpose", JValue.jStr "UNDERWRITING"),
   ("batch_mvrs", JValue.jArr [JValue.jObj mvrObjAlice, JValue.jObj mvrObjNoDL])]

/-- The MVR sub-object of the multi-error request (Test 1.15): empty or
forbidden values in all ten fields. -/
def mvrObj115 : JObj :=
  [("drivers_license_number", JValue.jStr ""),
   ("full_legal_name", JValue.jStr "Other"),
   ("birthdate", JValue.jStr ""),
   ("weight", JValue.jStr ""),
   ("sex", JValue.jStr ""),
   ("height", JValue.jStr ""),
   ("hair_color", JValue.jStr ""),
   ("eye_color", JValue.jStr ""),
   ("issued_state_code", JValue.jStr ""),
   ("state_code", JValue.jStr "")]

/-- A request violating rules in both the top-level and the MVR schema. -/
def body115 : JObj :=
  [("company_id", JValue.jStr ""),
   ("permissible_purpose", JValue.jStr "Other"),
   ("price_paid", JValue.jNum (-5)),
   ("redisclosure_authorization", JValue.jBool false),
   ("mvr", JValue.jObj mvrObj115)]

/-! ## Theorems: the claims of the specification -/


theorem strTruthy_iff (a : Option String) : strTruthy a = true ↔ a.getD "" ≠ "" := by
  cases a <;> simp [strTruthy]

theorem sanitizeId_length (s : String) : (sanitizeId s).length = min s.length 50 := by
  simp only [sanitizeId]
  show ((s.data.map _).take 50).length = min s.length 50
  rw [List.length_take, List.length_map, Nat.min_comm]
  rfl

theorem sanitizeId_getElem (s : String) (i : Nat)
    (h1 : i < (sanitizeId s).data.length) (h2 : i < s.data.length) :
    (sanitizeId s).data[i] =
      (if isAllowedIdChar s.data[i] then s.data[i] else '_') := by
  simp only [sanitizeId] at h1 ⊢
  rw [List.getElem_take, List.getElem_map]

theorem sanitizeId_ne_empty (s : String) (h : s ≠ "") : sanitizeId s ≠ "" := by
  intro hc
  apply h
  have hlen := sanitizeId_length s
  rw [hc] at hlen
  have h0 : s.length = 0 := by
    have hmin : min s.length 50 = 0 := hlen.symm
    omega
  have hdata : s.data = [] := List.length_eq_zero.mp h0
  cases s
  simp_all

/-- C9 (amended): the derived company identifier is the event's
`company_id` when present and non-empty, else its `user_id` when present
and non-empty, else the literal `"unknown"`; sanitisation replaces every
character outside `[a-zA-Z0-9_-]` with `'_'` and truncates to at most 50
characters; and the record's partition key is
`company=<id>/action=<op>/year=<yyyy>/month=<mm>/day=<dd>` built from the
sanitised id, the event's operation, and the timestamp's date parts. -/
theorem partitioner_company_key (e : RawLogEntry) (op : String)
    (hop : e.operation = some op) :
    ((e.company_id.getD "" ≠ "" →
        (processLogEntry e).company_id = sanitizeId (e.company_id.getD ""))
     ∧ (e.company_id.getD "" = "" → e.user_id.getD "" ≠ "" →
        (processLogEntry e).company_id = sanitizeId (e.user_id.getD ""))
     ∧ (e.company_id.getD "" = "" → e.user_id.getD "" = "" →
        (processLogEntry e).company_id = "unknown"))
    ∧ (∀ s : String, (sanitizeId s).length = min s.length 50)
    ∧ (∀ (s : String) (i : Nat)
        (h1 : i < (sanitizeId s).data.length) (h2 : i < s.data.length),
        (sanitizeId s).data[i] =
          (if isAllowedIdChar s.data[i] then s.data[i] else '_'))
    ∧ (processLogEntry e).s3_partition =
        "company=" ++ (processLogEntry e).company_id ++ "/action=" ++ op ++
        "/year=" ++ toString e.timestamp.year ++
        "/month=" ++ padTwo e.timestamp.month ++
        "/day=" ++ padTwo e.timestamp.day := by
  refine ⟨⟨?_, ?_, ?_⟩, sanitizeId_length, sanitizeId_getElem, ?_⟩
  · intro h
    have ht : strTruthy e.company_id = true := (strTruthy_iff _).mpr h
    have hne := sanitizeId_ne_empty _ h
    simp [processLogEntry, jsStrFallback, ht, hne]
  · intro h hu
    have ht : strTruthy e.company_id = false := by
      cases hst : strTruthy e.company_id
      · rfl
      · exact absurd ((strTruthy_iff _).mp hst) (by simp [h])
    have htu : strTruthy e.user_id = true := (strTruthy_iff _).mpr hu
    have hne := sanitizeId_ne_empty _ hu
    simp [processLogEntry, jsStrFallback, ht, htu, hne]
  · intro h hu
    have ht : strTruthy e.company_id = false := by
      cases hst : strTruthy e.company_id
      · rfl
      · exact absurd ((strTruthy_iff _).mp hst) (by simp [h])
    have htu : strTruthy e.user_id = false := by
      cases hst : strTruthy e.user_id
      · rfl
      · exact absurd ((strTruthy_iff _).mp hst) (by simp [hu])
    simp [processLogEntry, jsStrFallback, ht, htu]
    decide
  · simp [processLogEntry, generateCompanyS3Partition, hop]

/-- C9 witness: the amended fallback and partition-key shape at a concrete
event with company id `"acme corp"` (sanitised to `"acme_corp"`). -/
theorem partitioner_company_key_witness :
    (processLogEntry eC9).company_id = "acme_corp" ∧
    (processLogEntry eC9).s3_partition =
      "company=acme_corp/action=GET_MVR/year=2025/month=03/day=07" := by
  have h := partitioner_company_key eC9 "GET_MVR" rfl
  have hc : (processLogEntry eC9).company_id = sanitizeId "acme corp" :=
    h.1.1 (by decide)
  constructor
  · rw [hc]; decide
  · rw [h.2.2.2, hc]; decide

/-- C1 (amended): the MirrorRouter emits exactly one output record per
input record.  For a READ (`GET_MVR`) event whose seller company `A` is
present and differs from the accessor company `B`, that single record is
the synthetic mirror (result `Ok`) partitioned under `A`, carrying
`target_company_id = A` and `retrieved_by_company_id = B`; the original
event is not re-emitted by this stage.  When the seller is absent/empty,
when `A = B`, or for non-READ events, the single record is the original
data marked `Dropped`. -/
theorem mirror_router_single_output (records : List (Nat × AuditLogRecord)) :
    ((mirrorHandler records).length = records.length)
    ∧ (∀ (rid : Nat) (e : AuditLogRecord) (op A B : String),
        e.operation = some op → jsIncludes op "GET_MVR" = true → op ≠ "" →
        e.seller.bind (fun s => s.company_id) = some A → A ≠ "" →
        e.accessor.map (fun a => a.company_id) = some B → B ≠ A → B ≠ "" →
        mirrorOne rid e =
          { recordId := rid, result := "Ok",
            data := MirrorOutData.mirror e A B,
            partitionKeys := some
              { company_id := A, action := "MVR-RETRIEVED",
                year := toString e.timestamp.year,
                month := padTwo e.timestamp.month,
                day := padTwo e.timestamp.day } })
    ∧ (∀ (rid : Nat) (e : AuditLogRecord),
        ((e.seller.bind (fun s => s.company_id)).getD "" = "" ∨
         (∃ A, A ≠ "" ∧ e.seller.bind (fun s => s.company_id) = some A ∧
               e.accessor.map (fun a => a.company_id) = some A)) →
        mirrorOne rid e =
          { recordId := rid, result := "Dropped",
            data := MirrorOutData.original e, partitionKeys := none }) := by
  refine ⟨by simp [mirrorHandler], ?_, ?_⟩
  · intro rid e op A B hop hinc hop0 hsell hA hacc hBA hB
    have hget : (match e.operation with
                 | none => false
                 | some op => op ≠ "" && jsIncludes op "GET_MVR") = true := by
      rw [hop]; simp [hop0, hinc]
    have htr : strTruthy (e.seller.bind (fun s => s.company_id)) = true := by
      rw [hsell]; simp [strTruthy, hA]
    have hne : (e.accessor.map (fun a => a.company_id) == some A) = false := by
      rw [hacc]; simp [hBA]
    simp only [mirrorOne, hget, htr, hsell, hacc, hne]
    simp [strTruthy, hA, hBA, hB]
  · intro rid e h
    by_cases hget : (match e.operation with
                     | none => false
                     | some op => op ≠ "" && jsIncludes op "GET_MVR") = true
    · rcases h with h | ⟨A, hA, hsell, hacc⟩
      · have htr : strTruthy (e.seller.bind (fun s => s.company_id)) = false := by
          cases hs : e.seller.bind (fun s => s.company_id)
          · rfl
          · rw [hs] at h; simpa [strTruthy] using h
        simp [mirrorOne, hget, htr]
      · have htr : strTruthy (e.seller.bind (fun s => s.company_id)) = true := by
          rw [hsell]; simp [strTruthy, hA]
        have heq : (e.accessor.map (fun a => a.company_id) ==
            some ((e.seller.bind (fun s => s.company_id)).getD "")) = true := by
          rw [hacc, hsell]; simp
        simp [mirrorOne, hget, htr, heq]
    · have hget2 : (match e.operation with
                      | none => false
                      | some op => op ≠ "" && jsIncludes op "GET_MVR") = false :=
        Bool.eq_false_iff.mpr hget
      simp only [mirrorOne, hget2]
      simp

/-- C1 witness: the amended characterisation applied to the concrete
record `recC1` (seller `"A"`, accessor `"B"`): exactly one output record,
the seller mirror. -/
theorem mirror_router_single_output_witness :
    (mirrorHandler [(1, recC1)]).length = 1 ∧
    mirrorOne 1 recC1 =
      { recordId := 1, result := "Ok",
        data := MirrorOutData.mirror recC1 "A" "B",
        partitionKeys := some
          { company_id := "A", action := "MVR-RETRIEVED",
            year := "2025", month := "06", day := "15" } } := by
  have h := mirror_router_single_output [(1, recC1)]
  exact ⟨h.1, h.2.1 1 recC1 "GET_MVR" "A" "B" rfl (by decide) (by decide) rfl
    (by decide) rfl (by decide) (by decide)⟩

/-- C1 counterexample: for the READ event `recC1` with seller `"A"` ≠
accessor `"B"`, the stage's output holds exactly one record for the input
record — the mirror alone — not the original plus a mirror. -/
theorem mirror_router_fanout_counterexample :
    mirrorHandler [(1, recC1)] =
      [{ recordId := 1, result := "Ok",
         data := MirrorOutData.mirror recC1 "A" "B",
         partitionKeys := some
           { company_id := "A", action := "MVR-RETRIEVED",
             year := "2025", month := "06", day := "15" } }] ∧
    (mirrorHandler [(1, recC1)]).length ≠ 2 := by
  constructor
  · decide
  · decide

/-- C9 counterexample: an event whose `company_id` is present but empty is
keyed by its `user_id`, not by the (sanitised) `company_id`; "present"
alone is not enough. -/
theorem partitioner_company_key_counterexample :
    eC9bad.company_id = some "" ∧
    (processLogEntry eC9bad).company_id = "u1" ∧
    sanitizeId (eC9bad.company_id.getD "") = "" := by
  refine ⟨rfl, ?_, rfl⟩
  decide

theorem checkExistingUser_recent (st : Store) (lic : String) (today : Int)
    (u : UserRow) (r : MvrRow) (mid : Nat)
    (hu : st.users.find? (fun x => x.drivers_license_number == lic) = some u)
    (hcur : u.current_mvr_id = some mid) (hmid : mid ≠ 0)
    (hr : r ∈ st.mvr_records) (hrid : r.id = mid)
    (hrecent : today - 30 ≤ r.date_uploaded) :
    checkExistingUser st lic today = (some u.id, some mid, true) := by
  simp only [checkExistingUser, hu, hcur]
  rw [if_neg hmid]
  have hany : st.mvr_records.any
      (fun rr => rr.id == mid && decide (today - 30 ≤ rr.date_uploaded)) = true :=
    List.any_eq_true.mpr ⟨r, hr, by simp [hrid, hrecent]⟩
  simp only [hany]

theorem getUserData_isSome (st : Store) (u : UserRow) (hu : u ∈ st.users) :
    ∃ w, getUserData st u.id = some w := by
  cases hgu : getUserData st u.id with
  | some w => exact ⟨w, rfl⟩
  | none =>
    exfalso
    rw [getUserData, List.find?_eq_none] at hgu
    exact absurd (by simp : (u.id == u.id) = true) (by simpa using hgu u hu)

/-- The duplicate (suppressed) path of the add-mvr transaction. -/
theorem addMvr_duplicate_path
    (req : AddMvrRequest) (st : Store) (today : Int) (u : UserRow)
    (r : MvrRow) (mid : Nat)
    (hu : st.users.find?
      (fun x => x.drivers_license_number == req.mvr.drivers_license_number) = some u)
    (hcur : u.current_mvr_id = some mid) (hmid : mid ≠ 0)
    (hr : r ∈ st.mvr_records) (hrid : r.id = mid)
    (hrecent : today - 30 ≤ r.date_uploaded) :
    (addMvrProcess req st today).1 = st ∧
    (addMvrProcess req st today).2.statusCode = 200 ∧
    (addMvrProcess req st today).2.message = "MVR uploaded less than 30 days ago" ∧
    (addMvrProcess req st today).2.operationType = "DUPLICATE_MVR_ATTEMPT" ∧
    (addMvrProcess req st today).2.mvr_id = none := by
  have hchk := checkExistingUser_recent st req.mvr.drivers_license_number today
    u r mid hu hcur hmid hr hrid hrecent
  obtain ⟨w, hw⟩ := getUserData_isSome st u (List.mem_of_find?_eq_some hu)
  simp [addMvrProcess, hchk, hw]

/-! Projection lemmas: the cascade inserts leave the other tables alone. -/

@[simp] theorem addDriverLicenseInfo_users (st : Store) (m : MVRData) (i : Nat) :
    (addDriverLicenseInfo st m i).users = st.users := by
  unfold addDriverLicenseInfo; split <;> rfl

@[simp] theorem addDriverLicenseInfo_mvr_records (st : Store) (m : MVRData) (i : Nat) :
    (addDriverLicenseInfo st m i).mvr_records = st.mvr_records := by
  unfold addDriverLicenseInfo; split <;> rfl

@[simp] theorem addDriverLicenseInfo_nextMvrId (st : Store) (m : MVRData) (i : Nat) :
    (addDriverLicenseInfo st m i).nextMvrId = st.nextMvrId := by
  unfold addDriverLicenseInfo; split <;> rfl

@[simp] theorem addTrafficViolations_users (st : Store) (v : List ViolationData) (i : Nat) :
    (addTrafficViolations st v i).users = st.users := rfl

@[simp] theorem addTrafficViolations_mvr_records (st : Store) (v : List ViolationData) (i : Nat) :
    (addTrafficViolations st v i).mvr_records = st.mvr_records := rfl

@[simp] theorem addWithdrawals_users (st : Store) (w : List WithdrawalData) (i : Nat) :
    (addWithdrawals st w i).users = st.users := rfl

@[simp] theorem addWithdrawals_mvr_records (st : Store) (w : List WithdrawalData) (i : Nat) :
    (addWithdrawals st w i).mvr_records = st.mvr_records := rfl

@[simp] theorem addAccidents_users (st : Store) (a : List AccidentData) (i : Nat) :
    (addAccidents st a i).users = st.users := rfl

@[simp] theorem addAccidents_mvr_records (st : Store) (a : List AccidentData) (i : Nat) :
    (addAccidents st a i).mvr_records = st.mvr_records := rfl

@[simp] theorem addTrafficCrimes_users (st : Store) (c : List CrimeData) (i : Nat) :
    (addTrafficCrimes st c i).users = st.users := rfl

@[simp] theorem addTrafficCrimes_mvr_records (st : Store) (c : List CrimeData) (i : Nat) :
    (addTrafficCrimes st c i).mvr_records = st.mvr_records := rfl

/-! List helper lemmas -/

theorem find?_append_of_none {α : Type} (p : α → Bool) (l1 l2 : List α)
    (h : l1.find? p = none) : (l1 ++ l2).find? p = l2.find? p := by
  induction l1 with
  | nil => simp
  | cons a t ih =>
    cases hp : p a
    · simp only [List.find?_cons, hp] at h
      rw [List.cons_append]
      simp only [List.find?_cons, hp]
      exact ih h
    · simp [List.find?_cons, hp] at h

theorem find?_map_of_pred {α : Type} (p : α → Bool) (f : α → α) (l : List α)
    (hf : ∀ x, p (f x) = p x) : (l.map f).find? p = (l.find? p).map f := by
  induction l with
  | nil => simp
  | cons a t ih =>
    cases hp : p a
    · simp only [List.map_cons, List.find?_cons, hf a, hp]
      exact ih
    · simp only [List.map_cons, List.find?_cons, hf a, hp]
      rfl

theorem userUpdateFn_pred_invariant (lic : String) (mvrId : Nat) (uid : Nat) :
    ∀ x : UserRow,
      (((fun y => if y.id = uid then { y with current_mvr_id := some mvrId } else y) x).drivers_license_number ==
        lic) = (x.drivers_license_number == lic) := by
  intro x
  by_cases hxx : x.id = uid <;> simp [hxx]

theorem addMvr_update_shape (req : AddMvrRequest) (st : Store) (t0 : Int)
    (u : UserRow) (cm : Option Nat)
    (hfind : st.users.find?
      (fun x => x.drivers_license_number == req.mvr.drivers_license_number) = some u)
    (hchk : checkExistingUser st req.mvr.drivers_license_number t0 =
      (some u.id, cm, false)) :
    ∃ (u2 : UserRow) (row : MvrRow),
      (addMvrProcess req st t0).1.users.find?
        (fun x => x.drivers_license_number == req.mvr.drivers_license_number)
        = some u2 ∧
      u2.current_mvr_id = some st.nextMvrId ∧
      u2 ∈ (addMvrProcess req st t0).1.users ∧
      (addMvrProcess req st t0).1.mvr_records = st.mvr_records ++ [row] ∧
      row.id = st.nextMvrId ∧ row.date_uploaded = t0 ∧
      RowDefaults req t0 row := by
  simp only [addMvrProcess, hchk, createMvrRecord, updateUserMvrId, getUserData,
    addDriverLicenseInfo_users, addDriverLicenseInfo_mvr_records,
    addTrafficViolations_users, addTrafficViolations_mvr_records,
    addWithdrawals_users, addWithdrawals_mvr_records,
    addAccidents_users, addAccidents_mvr_records,
    addTrafficCrimes_users, addTrafficCrimes_mvr_records]
  split
  case _ userData heq =>
    dsimp only
    simp only [addDriverLicenseInfo_users, addDriverLicenseInfo_mvr_records,
        addTrafficViolations_users, addTrafficViolations_mvr_records,
        addWithdrawals_users, addWithdrawals_mvr_records,
        addAccidents_users, addAccidents_mvr_records,
        addTrafficCrimes_users, addTrafficCrimes_mvr_records]
    exact ⟨_, _,
      by
        rw [find?_map_of_pred _ _ _
          (userUpdateFn_pred_invariant req.mvr.drivers_license_number st.nextMvrId u.id)]
        rw [hfind]
        rfl,
      by simp,
      List.mem_map_of_mem _ (List.mem_of_find?_eq_some hfind),
      rfl,
      rfl, rfl, by
        refine ⟨?_, ?_, ?_, ?_, ?_, ?_, ?_, ?_, ?_⟩
        · intro h; simp [h]
        · intro d hd; simp [hd]
        · intro h; simp [h]
        · intro d hd; simp [hd]
        · intro h; simp [h, jsBoolOr]
        · intro h; simp [h, jsIntOr]
        · intro h; simp [h, jsIntOr]
        · intro v hv hpos; simp only [hv, jsIntOr]; split_ifs <;> omega
        · intro h; simp [h, jsIntOr]⟩
  case _ hnone =>
    exfalso
    rw [List.find?_eq_none] at hnone
    have hmem : (fun x => if x.id = u.id then { x with current_mvr_id := some st.nextMvrId } else x) u ∈
        st.users.map (fun x => if x.id = u.id then { x with current_mvr_id := some st.nextMvrId } else x) :=
      List.mem_map_of_mem _ (List.mem_of_find?_eq_some hfind)
    have h2 := hnone _ hmem
    simp at h2

theorem addMvr_accept_shape (req : AddMvrRequest) (st : Store) (t0 : Int)
    (hok : (addMvrProcess req st t0).2.statusCode = 201) :
    ∃ (u2 : UserRow) (row : MvrRow),
      (addMvrProcess req st t0).1.users.find?
        (fun x => x.drivers_license_number == req.mvr.drivers_license_number)
        = some u2 ∧
      u2.current_mvr_id = some st.nextMvrId ∧
      u2 ∈ (addMvrProcess req st t0).1.users ∧
      (addMvrProcess req st t0).1.mvr_records = st.mvr_records ++ [row] ∧
      row.id = st.nextMvrId ∧ row.date_uploaded = t0 ∧
      RowDefaults req t0 row := by
  cases hfind : st.users.find?
      (fun x => x.drivers_license_number == req.mvr.drivers_license_number) with
  | none =>
    have hchk : checkExistingUser st req.mvr.drivers_license_number t0 =
        (none, none, false) := by
      simp [checkExistingUser, hfind]
    clear hok
    simp only [addMvrProcess, hchk, createMvrRecord, createUser, getUserData,
      addDriverLicenseInfo_users, addDriverLicenseInfo_mvr_records,
      addTrafficViolations_users, addTrafficViolations_mvr_records,
      addWithdrawals_users, addWithdrawals_mvr_records,
      addAccidents_users, addAccidents_mvr_records,
      addTrafficCrimes_users, addTrafficCrimes_mvr_records]
    split
    case _ userData heq =>
      dsimp only
      simp only [addDriverLicenseInfo_users, addDriverLicenseInfo_mvr_records,
        addTrafficViolations_users, addTrafficViolations_mvr_records,
        addWithdrawals_users, addWithdrawals_mvr_records,
        addAccidents_users, addAccidents_mvr_records,
        addTrafficCrimes_users, addTrafficCrimes_mvr_records]
      exact ⟨_, _,
        by
          rw [find?_append_of_none _ _ _ hfind]
          simp only [List.find?, beq_self_eq_true],
        rfl,
        List.mem_append_right _ (List.mem_singleton_self _),
        rfl,
        rfl, rfl, by
          refine ⟨?_, ?_, ?_, ?_, ?_, ?_, ?_, ?_, ?_⟩
          · intro h; simp [h]
          · intro d hd; simp [hd]
          · intro h; simp [h]
          · intro d hd; simp [hd]
          · intro h; simp [h, jsBoolOr]
          · intro h; simp [h, jsIntOr]
          · intro h; simp [h, jsIntOr]
          · intro v hv hpos; simp only [hv, jsIntOr]; split_ifs <;> omega
          · intro h; simp [h, jsIntOr]⟩
    case _ hnone =>
      exfalso
      rw [List.find?_eq_none] at hnone
      have h2 := hnone _ (List.mem_append_right st.users (List.mem_singleton_self _))
      simp at h2
  | some u =>
    cases hcur : u.current_mvr_id with
    | none =>
      have hchk : checkExistingUser st req.mvr.drivers_license_number t0 =
          (some u.id, none, false) := by
        simp [checkExistingUser, hfind, hcur]
      exact addMvr_update_shape req st t0 u none hfind hchk
    | some mid =>
      by_cases hmid0 : mid = 0
      · have hchk : checkExistingUser st req.mvr.drivers_license_number t0 =
            (some u.id, some mid, false) := by
          simp only [checkExistingUser, hfind, hcur]
          rw [if_pos hmid0]
        exact addMvr_update_shape req st t0 u (some mid) hfind hchk
      · cases hrec : st.mvr_records.any
            (fun rr => rr.id == mid && decide (t0 - 30 ≤ rr.date_uploaded)) with
        | false =>
          have hchk : checkExistingUser st req.mvr.drivers_license_number t0 =
              (some u.id, some mid, false) := by
            simp only [checkExistingUser, hfind, hcur]
            rw [if_neg hmid0]
            simp only [hrec]
        
          exact addMvr_update_shape req st t0 u (some mid) hfind hchk
        | true =>
          exfalso
          have hchk : checkExistingUser st req.mvr.drivers_license_number t0 =
              (some u.id, some mid, true) := by
            simp only [checkExistingUser, hfind, hcur]
            rw [if_neg hmid0]
            simp only [hrec]
          obtain ⟨w, hw⟩ := getUserData_isSome st u (List.mem_of_find?_eq_some hfind)
          simp [addMvrProcess, hchk, hw] at hok

/-- C6: an ingestion accepted on day `t0` (status 201) followed by a second
ingestion for the same license number on day `t1` within the 30-day window
leaves the store fully unchanged: same Subject rows (in particular the
current-record pointer), and no new MVR, license-info, violation,
withdrawal, accident, or crime rows; the second run reports the duplicate
attempt. -/
theorem dedup_idempotent_two_runs
    (req req2 : AddMvrRequest) (st : Store) (t0 t1 : Int)
    (hlic : req2.mvr.drivers_license_number = req.mvr.drivers_license_number)
    (hnext : 1 ≤ st.nextMvrId)
    (hok : (addMvrProcess req st t0).2.statusCode = 201)
    (hwin : t1 - 30 ≤ t0) :
    (addMvrProcess req2 (addMvrProcess req st t0).1 t1).1 =
      (addMvrProcess req st t0).1 ∧
    (addMvrProcess req2 (addMvrProcess req st t0).1 t1).2.statusCode = 200 ∧
    (addMvrProcess req2 (addMvrProcess req st t0).1 t1).2.operationType =
      "DUPLICATE_MVR_ATTEMPT" ∧
    (addMvrProcess req2 (addMvrProcess req st t0).1 t1).2.mvr_id = none := by
  obtain ⟨u2, row, hfind2, hcur2, hmem2, hrecords, hrowid, hrowdate, hdef⟩ :=
    addMvr_accept_shape req st t0 hok
  have hrowmem : row ∈ (addMvrProcess req st t0).1.mvr_records := by
    rw [hrecords]; exact List.mem_append_right _ (List.mem_singleton_self _)
  have hfind2b : (addMvrProcess req st t0).1.users.find?
      (fun x => x.drivers_license_number == req2.mvr.drivers_license_number) = some u2 := by
    rw [hlic]; exact hfind2
  have h := addMvr_duplicate_path req2 (addMvrProcess req st t0).1 t1 u2 row
    st.nextMvrId hfind2b hcur2 (by omega) hrowmem hrowid (by omega)
  exact ⟨h.1, h.2.1, h.2.2.2.1, h.2.2.2.2⟩


/-- C2: a single ingestion whose license matches an existing Subject whose
current record's `date_uploaded` satisfies the inclusive comparison
`date_uploaded >= now - 30 days` is suppressed: no new MVR record row, a
200 response with exactly the message
`"MVR uploaded less than 30 days ago"`, tagged `DUPLICATE_MVR_ATTEMPT`. -/
theorem dedup_suppression
    (req : AddMvrRequest) (st : Store) (today : Int) (u : UserRow)
    (r : MvrRow) (mid : Nat)
    (hu : st.users.find?
      (fun x => x.drivers_license_number == req.mvr.drivers_license_number) = some u)
    (hcur : u.current_mvr_id = some mid) (hmid : mid ≠ 0)
    (hr : r ∈ st.mvr_records) (hrid : r.id = mid)
    (hrecent : today - 30 ≤ r.date_uploaded) :
    (addMvrProcess req st today).1.mvr_records = st.mvr_records ∧
    (addMvrProcess req st today).2.statusCode = 200 ∧
    (addMvrProcess req st today).2.message = "MVR uploaded less than 30 days ago" ∧
    (addMvrProcess req st today).2.operationType = "DUPLICATE_MVR_ATTEMPT" := by
  have h := addMvr_duplicate_path req st today u r mid hu hcur hmid hr hrid hrecent
  exact ⟨by rw [h.1], h.2.1, h.2.2.1, h.2.2.2.1⟩

/-- C2 witness: the suppression at a concrete store whose current record
was uploaded exactly 20 days before the second attempt. -/
theorem dedup_suppression_witness :
    (addMvrProcess reqW stDup 120).1.mvr_records = stDup.mvr_records ∧
    (addMvrProcess reqW stDup 120).2.statusCode = 200 ∧
    (addMvrProcess reqW stDup 120).2.message = "MVR uploaded less than 30 days ago" ∧
    (addMvrProcess reqW stDup 120).2.operationType = "DUPLICATE_MVR_ATTEMPT" :=
  dedup_suppression reqW stDup 120 uDup rDup 1 (by decide) (by decide)
    (by decide) (by decide) (by decide) (by decide)

/-- C6 witness: ingest `"DL1"` into the empty store on day 100, resubmit on
day 120; the second run changes nothing and reports the duplicate. -/
theorem dedup_idempotent_two_runs_witness :
    (addMvrProcess reqW (addMvrProcess reqW Store.empty 100).1 120).1 =
      (addMvrProcess reqW Store.empty 100).1 ∧
    (addMvrProcess reqW (addMvrProcess reqW Store.empty 100).1 120).2.statusCode = 200 ∧
    (addMvrProcess reqW (addMvrProcess reqW Store.empty 100).1 120).2.operationType =
      "DUPLICATE_MVR_ATTEMPT" ∧
    (addMvrProcess reqW (addMvrProcess reqW Store.empty 100).1 120).2.mvr_id = none :=
  dedup_idempotent_two_runs reqW reqW Store.empty 100 120 (by decide)
    (by decide) (by decide) (by decide)


/-- Any request body carrying a negative `storage_limitations` is rejected
by the add-mvr validation phase with status 400. -/
theorem storage_negative_rejected (body : JObj) (n : Int)
    (h : jget body "storage_limitations" = some (JValue.jNum n)) (hn : n < 0) :
    ∃ msg, addMvrValidate body = Except.error (400, msg) := by
  have hf : validateField "storage_limitations"
      (jget body "storage_limitations")
      ({ required := false, expectedType := some "number",
         customValidator := some nonNegativeNumberV }) =
      some { field := "storage_limitations",
             message := "Value must be a non-negative number" } := by
    rw [h]
    simp only [validateField, isNullish, nonNegativeNumberV, jsTypeName, jsToNumber]
    simp
    omega
  have hmem : ({ field := "storage_limitations",
                 message := "Value must be a non-negative number" } : ValidationError) ∈
      (validateSchema body schemaAddMvr).errors := by
    refine List.mem_filterMap.mpr ⟨("storage_limitations",
      { required := false, expectedType := some "number",
        customValidator := some nonNegativeNumberV }), ?_, hf⟩
    exact List.mem_cons_of_mem _ (List.mem_cons_of_mem _ (List.mem_cons_of_mem _
      (List.mem_cons_of_mem _ (List.mem_cons_self _ _))))
  have hne : (validateSchema body schemaAddMvr).errors.isEmpty = false := by
    cases herr : (validateSchema body schemaAddMvr).errors with
    | nil => rw [herr] at hmem; exact absurd hmem (List.not_mem_nil _)
    | cons a t => rfl
  refine ⟨String.intercalate "; "
    ((validateSchema body schemaAddMvr).errors.map (fun e => e.message)), ?_⟩
  rw [addMvrValidate]
  have hvot : validateOrThrow body schemaAddMvr 400 = Except.error (400,
      String.intercalate "; "
        ((validateSchema body schemaAddMvr).errors.map (fun e => e.message))) := by
    rw [validateOrThrow]
    simp only [validateSchema] at hne ⊢
    simp [hne]
  rw [hvot]
  rfl

/-- C5 (amended): for every accepted (non-suppressed) single ingestion, the
inserted record defaults `order_date`/`report_date` to today when absent,
`is_certified` to false, `total_points` to 0, and `storage_limitations` to
5x365 = 1825 days when unspecified; a supplied positive value is persisted
exactly, but a supplied 0 is persisted as 5 (the `|| 5` fallback), and a
negative value is rejected with 400 by validation before any insertion. -/
theorem ingestion_defaults (req : AddMvrRequest) (st : Store) (today : Int)
    (hok : (addMvrProcess req st today).2.statusCode = 201) :
    (∃ row : MvrRow,
      (addMvrProcess req st today).1.mvr_records = st.mvr_records ++ [row] ∧
      RowDefaults req today row)
    ∧ (∀ (body : JObj) (n : Int),
        jget body "storage_limitations" = some (JValue.jNum n) → n < 0 →
        ∃ msg, addMvrValidate body = Except.error (400, msg)) := by
  obtain ⟨u2, row, hfind2, hcur2, hmem2, hrecords, hrowid, hrowdate, hdef⟩ :=
    addMvr_accept_shape req st today hok
  exact ⟨⟨row, hrecords, hdef⟩, storage_negative_rejected⟩

/-- C5 witness: the amended statement at a concrete accepted ingestion. -/
theorem ingestion_defaults_witness :
    (∃ row : MvrRow,
      (addMvrProcess reqW Store.empty 100).1.mvr_records =
        Store.empty.mvr_records ++ [row] ∧
      RowDefaults reqW 100 row)
    ∧ (∀ (body : JObj) (n : Int),
        jget body "storage_limitations" = some (JValue.jNum n) → n < 0 →
        ∃ msg, addMvrValidate body = Except.error (400, msg)) :=
  ingestion_defaults reqW Store.empty 100 (by decide)

/-- C5 counterexample: a supplied `storage_limitations` of 0 is persisted
as 5, not as the supplied value, and a negative value is rejected with a
400 validation error rather than being defaulted to 1825. -/
theorem ingestion_defaults_counterexample :
    reqSL0.storage_limitations = some 0 ∧
    ((addMvrProcess reqSL0 Store.empty 100).1.mvr_records.map
      (fun r => r.storage_limitations)) = [5] ∧
    addMvrValidate bodyNeg =
      Except.error (400, "Value must be a non-negative number") := by
  refine ⟨rfl, by decide, by rfl⟩

theorem find?_none_of_filter_nil {α : Type} (p q : α → Bool) (l : List α)
    (h : l.filter p = []) : l.find? (fun x => p x && q x) = none := by
  rw [List.find?_eq_none]
  intro x hx
  have hpx := List.filter_eq_nil_iff.mp h x hx
  simp [hpx]

theorem find?_of_filter_singleton {α : Type} (p q : α → Bool) (l : List α)
    (a : α) (h : l.filter p = [a]) :
    l.find? (fun x => p x && q x) = if q a then some a else none := by
  induction l with
  | nil => simp at h
  | cons b t ih =>
    cases hp : p b with
    | true =>
      rw [List.filter_cons_of_pos hp] at h
      obtain ⟨hba, ht⟩ := List.cons_eq_cons.mp h
      subst hba
      rw [List.find?_cons]
      cases hq : q b with
      | true => simp [hp, hq]
      | false =>
        simp only [hp, hq, Bool.true_and]
        exact find?_none_of_filter_nil p q t ht
    | false =>
      rw [List.filter_cons_of_neg (by simp [hp])] at h
      rw [List.find?_cons]
      simp only [hp, Bool.false_and]
      exact ih h

/-- C4: for a retrieval with freshness window `days` against an existing
Subject with a current record, the handler returns 404 NOT_FOUND if and
only if both the record's `report_date` and `order_date` fall before
`now - days`; otherwise it returns the full aggregate (record, license
info, the four child collections, transaction/seller info). -/
theorem freshness_filter
    (lic : String) (days : Nat) (st : Store) (now : Int)
    (u : UserRow) (mid : Nat) (rec : MvrRow)
    (hu : st.users.find? (fun x => x.drivers_license_number == lic) = some u)
    (hcur : u.current_mvr_id = some mid) (hmid : mid ≠ 0)
    (hrec : st.mvr_records.filter (fun r => r.id == mid) = [rec]) :
    (((getMvrProcess lic days st now).statusCode = 404) ↔
      (rec.report_date < now - (days : Int) ∧ rec.order_date < now - (days : Int)))
    ∧ ((rec.report_date < now - (days : Int) ∧ rec.order_date < now - (days : Int)) →
        getMvrProcess lic days st now =
          { statusCode := 404,
            body := GetMvrBody.err
              ("No MVR found within the last " ++ toString days ++ " days") })
    ∧ (¬(rec.report_date < now - (days : Int) ∧ rec.order_date < now - (days : Int)) →
        getMvrProcess lic days st now =
          { statusCode := 200,
            body := GetMvrBody.record (assembleAggregate st u rec) }) := by
  have hfind := find?_of_filter_singleton (fun r => r.id == mid)
    (fun r => decide (now - (days : Int) ≤ r.report_date) ||
              decide (now - (days : Int) ≤ r.order_date)) st.mvr_records rec hrec
  simp only [] at hfind
  by_cases hfresh : rec.report_date < now - (days : Int) ∧
      rec.order_date < now - (days : Int)
  · have hq : (decide (now - (days : Int) ≤ rec.report_date) ||
        decide (now - (days : Int) ≤ rec.order_date)) = false := by
      simp only [Bool.or_eq_false_iff, decide_eq_false_iff_not]
      omega
    simp only [hq, Bool.false_eq_true, if_false] at hfind
    have hout : getMvrProcess lic days st now =
        { statusCode := 404,
          body := GetMvrBody.err
            ("No MVR found within the last " ++ toString days ++ " days") } := by
      simp only [getMvrProcess, hu, hcur]
      rw [if_neg hmid]
      have hfind2 : st.mvr_records.find?
          (fun r => r.id == mid &&
            (decide (now - (days : Int) ≤ r.report_date) ||
             decide (now - (days : Int) ≤ r.order_date))) = none := hfind
      rw [hfind2]
    exact ⟨by rw [hout]; simp [hfresh], fun _ => hout, fun hc => absurd hfresh hc⟩
  · have hq : (decide (now - (days : Int) ≤ rec.report_date) ||
        decide (now - (days : Int) ≤ rec.order_date)) = true := by
      simp only [Bool.or_eq_true, decide_eq_true_eq]
      omega
    simp only [hq, if_true] at hfind
    have hout : getMvrProcess lic days st now =
        { statusCode := 200,
          body := GetMvrBody.record (assembleAggregate st u rec) } := by
      simp only [getMvrProcess, hu, hcur]
      rw [if_neg hmid]
      have hfind2 : st.mvr_records.find?
          (fun r => r.id == mid &&
            (decide (now - (days : Int) ≤ r.report_date) ||
             decide (now - (days : Int) ≤ r.order_date))) = some rec := hfind
      rw [hfind2]
    refine ⟨?_, fun hc => absurd hc hfresh, fun _ => hout⟩
    rw [hout]
    simp only
    constructor
    · intro h400; omega
    · intro hc; exact absurd hc hfresh

/-- C4 witness: against a record whose report/order dates are 31 days old,
`days = 30` yields 404 with the freshness message, and `days = 31` yields
the full aggregate. -/
theorem freshness_filter_witness :
    getMvrProcess "DL9" 30 stC4 100 =
      { statusCode := 404,
        body := GetMvrBody.err "No MVR found within the last 30 days" } ∧
    getMvrProcess "DL9" 31 stC4 100 =
      { statusCode := 200,
        body := GetMvrBody.record (assembleAggregate stC4 uC4 rC4) } := by
  constructor
  · have h := (freshness_filter "DL9" 30 stC4 100 uC4 1 rC4 (by decide) (by decide)
      (by decide) (by decide)).2.1 (by decide)
    exact h.trans (by decide)
  · exact (freshness_filter "DL9" 31 stC4 100 uC4 1 rC4 (by decide) (by decide)
      (by decide) (by decide)).2.2 (by decide)

theorem batchValidateMvrs_error (good : List JObj) (bad : JObj)
    (rest : List JObj) (emsg : String) (i0 : Nat)
    (hgood : ∀ g ∈ good, validateOrThrow g schemaAddMvrData 400 = Except.ok ())
    (hbad : validateOrThrow bad schemaAddMvrData 400 = Except.error (400, emsg)) :
    batchValidateMvrs (good ++ bad :: rest) i0 =
      Except.error (400, "Validation failed for MVR at index " ++
        toString (i0 + good.length) ++ ": " ++ emsg) := by
  induction good generalizing i0 with
  | nil =>
    simp only [List.nil_append, batchValidateMvrs, hbad, List.length_nil,
      Nat.add_zero]
  | cons g gs ih =>
    have hg := hgood g (List.mem_cons_self _ _)
    simp only [List.cons_append, batchValidateMvrs, hg]
    have := ih (i0 + 1) (fun x hx => hgood x (List.mem_cons_of_mem _ hx))
    have harith : i0 + 1 + gs.length = i0 + (g :: gs).length := by
      simp only [List.length_cons]
      omega
    rw [harith] at this
    exact this

/-- C7: a batch whose payload at the first failing array index `i` fails
per-payload validation is rejected with status 400 before any persistence
(the store is returned untouched and no per-element processing happens),
with the error message exactly
`Validation failed for MVR at index i: <field errors>`. -/
theorem batch_index_validation
    (body : JObj) (st : Store) (today : Int) (faults : List Bool)
    (elems : List JValue) (good : List JObj) (bad : JObj)
    (rest : List JObj) (emsg : String)
    (htop : validateOrThrow body schemaBatchAddMvr 400 = Except.ok ())
    (harr : jget body "batch_mvrs" = some (JValue.jArr elems))
    (hsplit : elems.map jObjFields = good ++ bad :: rest)
    (hgood : ∀ g ∈ good, validateOrThrow g schemaAddMvrData 400 = Except.ok ())
    (hbad : validateOrThrow bad schemaAddMvrData 400 = Except.error (400, emsg)) :
    batchAddMvrHandler body st today faults =
      (st,
       { statusCode := 400, message := none,
         error := some ("Validation failed for MVR at index " ++
           toString good.length ++ ": " ++ emsg),
         summary := none, results := none }, []) := by
  have hbv : batchValidate body = Except.error (400,
      "Validation failed for MVR at index " ++ toString good.length ++
      ": " ++ emsg) := by
    rw [batchValidate]
    rw [htop]
    simp only [harr, Except.bind, hsplit]
    have := batchValidateMvrs_error good bad rest emsg 0 hgood hbad
    rw [this, Nat.zero_add]
    rfl
  simp [batchAddMvrHandler, hbv]

/-- C7 witness: the 2-payload batch of the spec's example yields exactly
the single indexed error and leaves the store untouched. -/
theorem batch_index_validation_witness :
    batchAddMvrHandler bodyBatch36 Store.empty 100 [] =
      (Store.empty,
       { statusCode := 400, message := none,
         error := some ("Validation failed for MVR at index 1: " ++
           "drivers_license_number is required and cannot be null or undefined"),
         summary := none, results := none }, []) := by
  have h := batch_index_validation bodyBatch36 Store.empty 100 []
    [JValue.jObj mvrObjAlice, JValue.jObj mvrObjNoDL] [mvrObjAlice] mvrObjNoDL []
    "drivers_license_number is required and cannot be null or undefined"
    (by rfl) (by rfl) (by rfl)
    (by
      intro g hg
      rw [List.mem_singleton] at hg
      subst hg
      rfl)
    (by rfl)
  exact h.trans (by decide)

theorem validateField_field (n : String) (v : Option JValue) (c : FieldConfig)
    (e : ValidationError) (h : validateField n v c = some e) : e.field = n := by
  unfold validateField at h
  dsimp only at h
  repeat' split at h
  all_goals first
    | (injection h with h2; subst h2; rfl)
    | (injection h)

theorem filterMap_map_sublist {a b c : Type} (f : a → Option b) (g : b → c)
    (k : a → c) (l : List a) (hfg : ∀ x y, f x = some y → g y = k x) :
    ((l.filterMap f).map g).Sublist (l.map k) := by
  induction l with
  | nil => simp
  | cons x t ih =>
    cases hfx : f x with
    | none =>
      rw [List.filterMap_cons_none hfx, List.map_cons]
      exact ih.cons _
    | some y =>
      rw [List.filterMap_cons_some hfx, List.map_cons, List.map_cons,
        hfg x y hfx]
      exact ih.cons₂ _

/-- C8 (amended): when the top-level request schema has any failing field,
the response is status 400 and its message joins, with `"; "`, exactly one
error message per violating field of that schema, in schema-declaration
order (the fields of the errors form a sublist of the schema's field
order); errors of the nested MVR schema are not part of this message, as
that schema is only checked after the top-level schema passes. -/
theorem validation_error_join (body : JObj)
    (hne : (validateSchema body schemaAddMvr).errors ≠ []) :
    addMvrValidate body = Except.error (400,
      String.intercalate "; "
        ((validateSchema body schemaAddMvr).errors.map (fun e => e.message))) ∧
    ((validateSchema body schemaAddMvr).errors.map (fun e => e.field)).Sublist
      (schemaAddMvr.map (fun p => p.1)) := by
  constructor
  · have hie : (validateSchema body schemaAddMvr).errors.isEmpty = false := by
      cases herr : (validateSchema body schemaAddMvr).errors with
      | nil => exact absurd herr hne
      | cons a t => rfl
    rw [addMvrValidate]
    have hvot : validateOrThrow body schemaAddMvr 400 = Except.error (400,
        String.intercalate "; "
          ((validateSchema body schemaAddMvr).errors.map (fun e => e.message))) := by
      rw [validateOrThrow]
      simp only [validateSchema] at hie ⊢
      simp [hie]
    rw [hvot]
    rfl
  · have : (validateSchema body schemaAddMvr).errors =
        schemaAddMvr.filterMap
          (fun p => validateField p.1 (jget body p.1) p.2) := by
      simp [validateSchema]
    rw [this]
    exact filterMap_map_sublist _ _ _ _
      (fun p e he => validateField_field p.1 (jget body p.1) p.2 e he)

/-- C8 witness: the amended statement at the concrete multi-error body. -/
theorem validation_error_join_witness :
    addMvrValidate body115 = Except.error (400,
      String.intercalate "; "
        ((validateSchema body115 schemaAddMvr).errors.map (fun e => e.message))) ∧
    ((validateSchema body115 schemaAddMvr).errors.map (fun e => e.field)).Sublist
      (schemaAddMvr.map (fun p => p.1)) :=
  validation_error_join body115 (by decide)

/-- C8 counterexample: on the multi-error body the response message holds
only the four top-level field errors; the ten violated MVR-field rules do
not contribute a message (the message never mentions
`drivers_license_number`), so the response does not contain one message
per violated rule. -/
theorem validation_error_join_counterexample :
    addMvrValidate body115 = Except.error (400,
      "company_id is required and cannot be empty; " ++
      "permissible_purpose cannot be 'Other'. Please provide a valid value; " ++
      "Value must be a non-negative number; " ++
      "redisclosure_authorization is required and must be true") ∧
    (validateSchema mvrObj115 schemaAddMvrData).errors.length = 10 ∧
    jsIncludes
      ("company_id is required and cannot be empty; " ++
       "permissible_purpose cannot be 'Other'. Please provide a valid value; " ++
       "Value must be a non-negative number; " ++
       "redisclosure_authorization is required and must be true")
      "drivers_license_number" = false := by
  refine ⟨by rfl, by rfl, by decide⟩


def mvrB : MVRData :=
  { mvrW with drivers_license_number := "DLB", full_legal_name := "Bob Johnson" }

theorem batchLoop_length (payloads : List MVRData) (cid : String) (today : Int)
    (faults : List Bool) (st : Store) (ab : Bool) :
    ((batchLoop payloads cid today faults st ab).2.1).length = payloads.length := by
  induction payloads generalizing faults st ab with
  | nil => rfl
  | cons p ps ih =>
    rcases hps : processSingleMvr st ab p cid today (faults.headD false) with
      ⟨⟨st1, ab1⟩, r, evs⟩
    simp only [batchLoop, hps]
    rcases hbl : batchLoop ps cid today faults.tail st1 ab1 with ⟨⟨st2, ab2⟩, rs, evs2⟩
    simp only [List.length_cons]
    have := ih faults.tail st1 ab1
    rw [hbl] at this
    simp only at this
    omega

/-- C3 (amended): when any element of the batch fails during in-transaction
processing, the whole transaction is rolled back (the store is returned
unchanged) and the 500 response still carries the per-element outcome
list, with one entry per payload.  (Per-payload validation failures
instead reject the batch with 400 and a single indexed message before the
transaction begins, with no outcome list.) -/
theorem batch_rollback_reports (payloads : List MVRData) (cid : String)
    (st : Store) (today : Int) (faults : List Bool)
    (hfail : ((batchLoop payloads cid today faults st false).2.1).any
      (fun r => !r.success) = true) :
    (batchProcess payloads cid st today faults).1 = st ∧
    (batchProcess payloads cid st today faults).2.1.statusCode = 500 ∧
    (batchProcess payloads cid st today faults).2.1.results =
      some (batchLoop payloads cid today faults st false).2.1 ∧
    ((batchLoop payloads cid today faults st false).2.1).length =
      payloads.length := by
  have hlen := batchLoop_length payloads cid today faults st false
  rcases hbl : batchLoop payloads cid today faults st false with
    ⟨⟨st2, ab⟩, results, events⟩
  rw [hbl] at hfail hlen
  simp only at hfail hlen
  simp only [batchProcess, hbl, hfail]
  exact ⟨rfl, rfl, rfl, hlen⟩

theorem processSingleMvr_success_event (st : Store) (ab : Bool) (m : MVRData)
    (cid : String) (today : Int) (fault : Bool)
    (h : (processSingleMvr st ab m cid today fault).2.1.rtype = BatchType.NEW ∨
         (processSingleMvr st ab m cid today fault).2.1.rtype = BatchType.UPDATED) :
    ∃ ev ∈ (processSingleMvr st ab m cid today fault).2.2,
      ev.success = true ∧ ev.operation_category = "WRITE" := by
  by_cases hdl : m.drivers_license_number = ""
  · simp [processSingleMvr, hdl] at h
  · cases hab : ab with
    | true => simp [processSingleMvr, hdl, hab] at h
    | false =>
      rcases hchk : checkExistingUser st m.drivers_license_number today with
        ⟨uq, cq, rec⟩
      cases uq with
      | some uid =>
        cases rec with
        | true => simp [processSingleMvr, hdl, hab, hchk] at h
        | false =>
          cases hft : fault with
          | true => simp [processSingleMvr, hdl, hab, hchk, hft] at h
          | false =>
            clear h
            have huser : ∃ u, st.users.find?
                (fun x => x.drivers_license_number == m.drivers_license_number)
                  = some u ∧ u.id = uid := by
              unfold checkExistingUser at hchk
              cases hfind : st.users.find?
                  (fun x => x.drivers_license_number == m.drivers_license_number) with
              | none => rw [hfind] at hchk; simp at hchk
              | some u =>
                rw [hfind] at hchk
                simp only [] at hchk
                refine ⟨u, rfl, ?_⟩
                cases hcur : u.current_mvr_id with
                | none =>
                  rw [hcur] at hchk
                  simp at hchk
                  exact hchk.1
                | some mid =>
                  rw [hcur] at hchk
                  simp only [] at hchk
                  by_cases hm0 : mid = 0
                  · rw [if_pos hm0] at hchk
                    simp at hchk
                    exact hchk.1
                  · rw [if_neg hm0] at hchk
                    simp at hchk
                    exact hchk.1
            obtain ⟨u, hfind, huid⟩ := huser
            simp only [processSingleMvr, hdl, hab, hchk, hft, if_neg,
              createMvrRecordBatch, updateUserMvrId, getUserData,
              addDriverLicenseInfo_users, addTrafficViolations_users,
              addWithdrawals_users, addAccidents_users, addTrafficCrimes_users]
            simp only [ite_false, Bool.false_eq_true]
            split
            case _ w hw =>
              exact ⟨_, List.mem_singleton_self _, rfl, rfl⟩
            case _ hnone =>
              exfalso
              rw [List.find?_eq_none] at hnone
              have hmem : (fun x : UserRow => if x.id = uid then
                  { x with current_mvr_id := some st.nextMvrId } else x) u ∈
                  st.users.map (fun x => if x.id = uid then
                    { x with current_mvr_id := some st.nextMvrId } else x) :=
                List.mem_map_of_mem _ (List.mem_of_find?_eq_some hfind)
              have h2 := hnone _ hmem
              simp [huid] at h2
      | none =>
        cases hft : fault with
        | true => simp [processSingleMvr, hdl, hab, hchk, hft] at h
        | false =>
          clear h
          simp only [processSingleMvr, hdl, hab, hchk, hft, if_neg,
            createMvrRecordBatch, createUser, getUserData,
            addDriverLicenseInfo_users, addTrafficViolations_users,
            addWithdrawals_users, addAccidents_users, addTrafficCrimes_users]
          simp only [ite_false, Bool.false_eq_true]
          split
          case _ w hw =>
            exact ⟨_, List.mem_singleton_self _, rfl, rfl⟩
          case _ hnone =>
            exfalso
            rw [List.find?_eq_none] at hnone
            have h2 := hnone _ (List.mem_append_right st.users
              (List.mem_singleton_self _))
            simp at h2

theorem batchLoop_success_events (payloads : List MVRData) (cid : String)
    (today : Int) (faults : List Bool) (st : Store) (ab : Bool) :
    ∀ r ∈ (batchLoop payloads cid today faults st ab).2.1,
      (r.rtype = BatchType.NEW ∨ r.rtype = BatchType.UPDATED) →
      ∃ ev ∈ (batchLoop payloads cid today faults st ab).2.2,
        ev.success = true ∧ ev.operation_category = "WRITE" := by
  induction payloads generalizing faults st ab with
  | nil => intro r hr; simp [batchLoop] at hr
  | cons p ps ih =>
    intro r hr hty
    rcases hps : processSingleMvr st ab p cid today (faults.headD false) with
      ⟨⟨st1, ab1⟩, r0, evs⟩
    rcases hbl : batchLoop ps cid today faults.tail st1 ab1 with
      ⟨⟨st2, ab2⟩, rs, evs2⟩
    simp only [batchLoop, hps, hbl] at hr ⊢
    rcases List.mem_cons.mp hr with h0 | hmem
    · subst h0
      have hpe := processSingleMvr_success_event st ab p cid today
        (faults.headD false) (by rw [hps]; simpa using hty)
      rw [hps] at hpe
      simp only at hpe
      obtain ⟨ev, hev, hprop⟩ := hpe
      exact ⟨ev, List.mem_append_left _ hev, hprop⟩
    · have hin := ih faults.tail st1 ab1 r (by rw [hbl]; simpa using hmem) hty
      rw [hbl] at hin
      simp only at hin
      obtain ⟨ev, hev, hprop⟩ := hin
      exact ⟨ev, List.mem_append_right _ hev, hprop⟩

/-- C10: every successfully processed batch element emits a success WRITE
audit event during per-element processing (inside the open transaction),
and these events survive a later rollback: for the concrete 2-element
batch whose second element hits a persistence fault, a success WRITE
event for the first element's license is emitted even though the final
store equals the initial store and the inserted record never becomes
visible. -/
theorem batch_audit_before_commit :
    (∀ (payloads : List MVRData) (cid : String) (st : Store) (today : Int)
       (faults : List Bool) (r : BatchResult),
       r ∈ (batchLoop payloads cid today faults st false).2.1 →
       (r.rtype = BatchType.NEW ∨ r.rtype = BatchType.UPDATED) →
       ∃ ev ∈ (batchProcess payloads cid st today faults).2.2,
         ev.success = true ∧ ev.operation_category = "WRITE")
    ∧ ((batchProcess [mvrW, mvrB] "ACME" Store.empty 100 [false, true]).1 =
         Store.empty ∧
       (batchProcess [mvrW, mvrB] "ACME" Store.empty 100
         [false, true]).2.1.statusCode = 500 ∧
       (∃ ev ∈ (batchProcess [mvrW, mvrB] "ACME" Store.empty 100
          [false, true]).2.2,
         ev.success = true ∧ ev.operation_category = "WRITE" ∧
         ev.drivers_license_number = some "DL1") ∧
       (batchProcess [mvrW, mvrB] "ACME" Store.empty 100
         [false, true]).1.mvr_records = []) := by
  constructor
  · intro payloads cid st today faults r hr hty
    obtain ⟨ev, hev2, hprop⟩ :=
      batchLoop_success_events payloads cid today faults st false r hr hty
    rcases hbl : batchLoop payloads cid today faults st false with
      ⟨⟨st2, ab⟩, results, events⟩
    rw [hbl] at hev2
    simp only at hev2
    simp only [batchProcess, hbl]
    split
    · exact ⟨ev, List.mem_append_left _ hev2, hprop⟩
    · exact ⟨ev, List.mem_append_left _ hev2, hprop⟩
  · refine ⟨by decide, by decide, by decide, by decide⟩


/-- Batch element fixture: valid except `full_legal_name` is `"Other"`. -/
def mvrObjOther : JObj :=
  [("drivers_license_number", JValue.jStr "DL222222222"),
   ("full_legal_name", JValue.jStr "Other"),
   ("birthdate", JValue.jStr "1992-11-15"),
   ("weight", JValue.jStr "190"),
   ("sex", JValue.jStr "M"),
   ("height", JValue.jStr "600"),
   ("hair_color", JValue.jStr "Black"),
   ("eye_color", JValue.jStr "Brown"),
   ("issued_state_code", JValue.jStr "TX"),
   ("state_code", JValue.jStr "TX")]

/-- A batch request whose element at index 1 fails validation. -/
def bodyC3 : JObj :=
  [("company_id", JValue.jStr "ACME"),
   ("permissible_purpose", JValue.jStr "UNDERWRITING"),
   ("batch_mvrs", JValue.jArr [JValue.jObj mvrObjAlice, JValue.jObj mvrObjOther])]

/-- The per-element result of the first element of the C10 batch. -/
def rC10 : BatchResult :=
  { success := true, message := "New user and MVR created successfully",
    rtype := BatchType.NEW, mvr_id := some 1, user_id := some 1,
    error := none, drivers_license_number := "DL1" }

/-- C3 witness: the 2-element batch whose second element hits a
persistence fault rolls back entirely while the 500 response carries both
per-element outcomes. -/
theorem batch_rollback_reports_witness :
    (batchProcess [mvrW, mvrB] "ACME" Store.empty 100 [false, true]).1 =
      Store.empty ∧
    (batchProcess [mvrW, mvrB] "ACME" Store.empty 100
      [false, true]).2.1.statusCode = 500 ∧
    (batchProcess [mvrW, mvrB] "ACME" Store.empty 100 [false, true]).2.1.results =
      some (batchLoop [mvrW, mvrB] "ACME" 100 [false, true] Store.empty false).2.1 ∧
    ((batchLoop [mvrW, mvrB] "ACME" 100 [false, true] Store.empty
      false).2.1).length = 2 :=
  batch_rollback_reports [mvrW, mvrB] "ACME" Store.empty 100 [false, true]
    (by decide)

/-- C3 counterexample: when an element fails *validation*, the whole batch
is rejected with 400 and a single indexed message before the transaction
begins; no per-element outcome list is returned, contradicting the claim
that the response still returns the per-element outcome list for
validation failures. -/
theorem batch_rollback_counterexample :
    (batchAddMvrHandler bodyC3 Store.empty 100 []).2.1.statusCode = 400 ∧
    (batchAddMvrHandler bodyC3 Store.empty 100 []).2.1.results = none ∧
    (batchAddMvrHandler bodyC3 Store.empty 100 []).1 = Store.empty := by
  refine ⟨by rfl, by rfl, by rfl⟩

/-- C10 witness: the per-element success-event guarantee applied to the
concrete rolled-back batch. -/
theorem batch_audit_before_commit_witness :
    ∃ ev ∈ (batchProcess [mvrW, mvrB] "ACME" Store.empty 100 [false, true]).2.2,
      ev.success = true ∧ ev.operation_category = "WRITE" :=
  batch_audit_before_commit.1 [mvrW, mvrB] "ACME" Store.empty 100 [false, true]
    rC10 (by decide) (by decide)

end MVR
